import Mathlib

/-!
Verification development for the OITVOIP MCP server.

The development shallowly embeds the two source files of the repository:

* `src/netsapiens-client.ts` — the `NetSapiensClient` gateway class, one
  method per remote NetSapiens operation, each returning a normalized
  `NetSapiensApiResponse` envelope instead of throwing;
* `src/index.ts` — the MCP tool catalog (`listTools`) and the dispatcher
  (`callTool`) with its per-tool handlers.

JavaScript runtime values appearing in tool arguments, query parameters
and JSON bodies are embedded as the inductive `JsValue`, with explicit
`undefined` so that truthiness checks, `||` defaults and the key-dropping
behaviour of `JSON.stringify` can be stated faithfully.  The axios
transport is a function parameter from requests to outcomes, so every
gateway method is a pure function of the transport; the single request a
method issues is returned alongside its result so that claims about
"zero HTTP calls" and request shapes are provable.
-/

/-- A JavaScript runtime value as it appears in tool arguments, axios
query parameters and parsed JSON bodies.  `undefined` is JavaScript's
`undefined` (an absent object property). -/
inductive JsValue where
| undefined : JsValue
| null : JsValue
| bool : Bool → JsValue
| num : Int → JsValue
| str : String → JsValue
| arr : List JsValue → JsValue
| obj : List (String × JsValue) → JsValue

/-- Whether a value is JavaScript's `undefined` (used for destructuring
defaults, which apply exactly when the supplied value is undefined). -/
def isUndefined : JsValue → Bool
| .undefined => true
| _ => false

/-- JavaScript truthiness: the source guards such as `if (!query)` and
`if (domain)` test this.  (`NaN` is not representable in the integer
number model; no claim depends on it.) -/
def truthy : JsValue → Bool
| .undefined => false
| .null => false
| .bool b => b
| .num n => n != 0
| .str s => s != ""
| .arr _ => true
| .obj _ => true

/-- JavaScript `a || b`: the left operand when truthy, otherwise the
right one. -/
def jsOr (a b : JsValue) : JsValue := if truthy a then a else b

mutual

/-- JavaScript `String(v)` as used by template literals such as
`` `/domains/${domain}/users` ``. -/
def tmpl : JsValue → String
| .undefined => "undefined"
| .null => "null"
| .bool b => if b then "true" else "false"
| .num n => toString n
| .str s => s
| .arr xs => tmplList xs
| .obj _ => "[object Object]"

/-- Array elements joined with commas, as `String([...])` does; `null`
and `undefined` elements convert to the empty string. -/
def tmplList : List JsValue → String
| [] => ""
| [x] => tmplElem x
| x :: xs => tmplElem x ++ "," ++ tmplList xs

/-- One array element under `Array.prototype.toString`. -/
def tmplElem : JsValue → String
| .undefined => ""
| .null => ""
| v => tmpl v

end

/-- JavaScript `v?.length` as a value (`undefined` when the receiver has
no `length` property or is nullish). -/
def jsLength : JsValue → JsValue
| .arr xs => .num xs.length
| .str s => .num s.length
| _ => .undefined

/-- HTTP method of a gateway request. -/
inductive HttpMethod where
| get : HttpMethod
| post : HttpMethod
deriving DecidableEq

/-- A request built by a gateway method: the resource path produced by
template substitution and the axios `params` object (query parameters),
in construction order; values may be `undefined`. -/
structure HttpRequest where
  method : HttpMethod
  path : String
  params : List (String × JsValue) := []

/-- Outcome of the axios call: a 2xx response with its parsed body, or a
thrown transport/HTTP error carrying its (possibly undefined) `message`
property. -/
inductive HttpOutcome where
| ok : JsValue → HttpOutcome
| err : JsValue → HttpOutcome

/-- The transport underlying the axios client: what the HTTP stack
returns for each request.  Gateway methods are parameterized by it. -/
abbrev Transport := HttpRequest → HttpOutcome

/-- A transport on which every request fails, the thrown error carrying
`m` as its `message` property (a mock of a network/HTTP failure). -/
def failT (m : JsValue) : Transport := fun _ => .err m

/-- A transport on which every request succeeds with body `body` (a mock
of a 2xx response). -/
def okT (body : JsValue) : Transport := fun _ => .ok body

/-- `NetSapiensApiResponse<T>`: the uniform envelope every gateway
method returns; `undefined` models an absent optional field. -/
structure OperationResult where
  success : Bool
  data : JsValue := .undefined
  error : JsValue := .undefined
  message : JsValue := .undefined

/-- `Array.isArray(v)`. -/
def isArr : JsValue → Bool
| .arr _ => true
| _ => false

/-- The list-leniency expression
`Array.isArray(response.data) ? response.data : [response.data]`
appearing in every list-returning gateway method. -/
def ensureArray (v : JsValue) : JsValue := if isArr v then v else .arr [v]

namespace NetSapiensClient

/-- Gateway method `searchUsers(query, domain?, limit = 20)`:
domain-scoped or cross-domain user search.  Returns the envelope and the
single issued request. -/
def searchUsers (c : Transport) (query domain limit : JsValue) :
    OperationResult × List HttpRequest :=
  let limit := if isUndefined limit then .num 20 else limit
  let endpoint := if truthy domain then "/domains/" ++ tmpl domain ++ "/users"
    else "/domains/~/users/~"
  let req : HttpRequest :=
    { method := .get, path := endpoint
      params := [(( "user"), query), (( "limit"), limit)] }
  ((match c req with
  | .ok body => { success := true, data := ensureArray body }
  | .err m =>
    { success := false, error := jsOr m (.str ( "Failed to search users"))
      data := .arr [] }), [req])

/-- Gateway method `getUser(userId, domain)`: single-entity user
lookup. -/
def getUser (c : Transport) (userId domain : JsValue) :
    OperationResult × List HttpRequest :=
  let req : HttpRequest :=
    { method := .get
      path := "/domains/" ++ tmpl domain ++ "/users/" ++ tmpl userId }
  ((match c req with
  | .ok body => { success := true, data := body }
  | .err m =>
    { success := false, error := jsOr m (.str ( "Failed to get user"))
      data := .undefined }), [req])

/-- The parameter object of `getCDRRecords`. -/
structure CDRParams where
  startDate : JsValue := .undefined
  endDate : JsValue := .undefined
  user : JsValue := .undefined
  domain : JsValue := .undefined
  limit : JsValue := .undefined

/-- Gateway method `getCDRRecords(params)`: call detail records, scoped
to a user, to a domain, or global, with `start_time`/`end_time`/`limit`
query parameters (`limit` falsy-defaulted to 100). -/
def getCDRRecords (c : Transport) (p : CDRParams) :
    OperationResult × List HttpRequest :=
  let endpoint :=
    if truthy p.user && truthy p.domain then
      "/domains/" ++ tmpl p.domain ++ "/users/" ++ tmpl p.user ++ "/cdrs"
    else if truthy p.domain then "/domains/" ++ tmpl p.domain ++ "/cdrs"
    else "/cdrs"
  let req : HttpRequest :=
    { method := .get, path := endpoint
      params := [(( "start_time"), p.startDate), (( "end_time"), p.endDate),
                 (( "limit"), jsOr p.limit (.num 100))] }
  ((match c req with
  | .ok body => { success := true, data := ensureArray body }
  | .err m =>
    { success := false, error := jsOr m (.str ( "Failed to get CDR records"))
      data := .arr [] }), [req])

/-- Gateway method `getDomains()`: the domain list. -/
def getDomains (c : Transport) : OperationResult × List HttpRequest :=
  let req : HttpRequest := { method := .get, path := "/domains" }
  ((match c req with
  | .ok body => { success := true, data := ensureArray body }
  | .err m =>
    { success := false, error := jsOr m (.str ( "Failed to get domains"))
      data := .arr [] }), [req])

/-- Gateway method `getDomain(domain)`: single-entity domain lookup. -/
def getDomain (c : Transport) (domain : JsValue) :
    OperationResult × List HttpRequest :=
  let req : HttpRequest := { method := .get, path := "/domains/" ++ tmpl domain }
  ((match c req with
  | .ok body => { success := true, data := body }
  | .err m =>
    { success := false, error := jsOr m (.str ( "Failed to get domain"))
      data := .undefined }), [req])

/-- Gateway method `getUserDevices(userId, domain)`: a user's device
list. -/
def getUserDevices (c : Transport) (userId domain : JsValue) :
    OperationResult × List HttpRequest :=
  let req : HttpRequest :=
    { method := .get
      path := "/domains/" ++ tmpl domain ++ "/users/" ++ tmpl userId ++ "/devices" }
  ((match c req with
  | .ok body => { success := true, data := ensureArray body }
  | .err m =>
    { success := false, error := jsOr m (.str ( "Failed to get user devices"))
      data := .arr [] }), [req])

/-- Gateway method `getPhoneNumbers(domain, limit?)`: a domain's phone
numbers, with an optional `limit` query parameter. -/
def getPhoneNumbers (c : Transport) (domain limit : JsValue) :
    OperationResult × List HttpRequest :=
  let req : HttpRequest :=
    { method := .get, path := "/domains/" ++ tmpl domain ++ "/phonenumbers"
      params := [(( "limit"), limit)] }
  ((match c req with
  | .ok body => { success := true, data := ensureArray body }
  | .err m =>
    { success := false, error := jsOr m (.str ( "Failed to get phone numbers"))
      data := .arr [] }), [req])

/-- Gateway method `getPhoneNumber(domain, phoneNumber)`: single phone
number details. -/
def getPhoneNumber (c : Transport) (domain phoneNumber : JsValue) :
    OperationResult × List HttpRequest :=
  let req : HttpRequest :=
    { method := .get
      path := "/domains/" ++ tmpl domain ++ "/phonenumbers/" ++ tmpl phoneNumber }
  ((match c req with
  | .ok body => { success := true, data := body }
  | .err m =>
    { success := false, error := jsOr m (.str ( "Failed to get phone number"))
      data := .undefined }), [req])

/-- Gateway method `getCallQueues(domain)`: a domain's call queues. -/
def getCallQueues (c : Transport) (domain : JsValue) :
    OperationResult × List HttpRequest :=
  let req : HttpRequest :=
    { method := .get, path := "/domains/" ++ tmpl domain ++ "/callqueues" }
  ((match c req with
  | .ok body => { success := true, data := ensureArray body }
  | .err m =>
    { success := false, error := jsOr m (.str ( "Failed to get call queues"))
      data := .arr [] }), [req])

/-- Gateway method `getCallQueue(domain, queueId)`: single call queue
details. -/
def getCallQueue (c : Transport) (domain queueId : JsValue) :
    OperationResult × List HttpRequest :=
  let req : HttpRequest :=
    { method := .get
      path := "/domains/" ++ tmpl domain ++ "/callqueues/" ++ tmpl queueId }
  ((match c req with
  | .ok body => { success := true, data := body }
  | .err m =>
    { success := false, error := jsOr m (.str ( "Failed to get call queue"))
      data := .undefined }), [req])

/-- Gateway method `getCallQueueAgents(domain, queueId)`: a queue's
agent list. -/
def getCallQueueAgents (c : Transport) (domain queueId : JsValue) :
    OperationResult × List HttpRequest :=
  let req : HttpRequest :=
    { method := .get
      path := "/domains/" ++ tmpl domain ++ "/callqueues/" ++ tmpl queueId ++ "/agents" }
  ((match c req with
  | .ok body => { success := true, data := ensureArray body }
  | .err m =>
    { success := false
      error := jsOr m (.str ( "Failed to get call queue agents"))
      data := .arr [] }), [req])

/-- Gateway method `getAgents(domain)`: a domain's agents. -/
def getAgents (c : Transport) (domain : JsValue) :
    OperationResult × List HttpRequest :=
  let req : HttpRequest :=
    { method := .get, path := "/domains/" ++ tmpl domain ++ "/agents" }
  ((match c req with
  | .ok body => { success := true, data := ensureArray body }
  | .err m =>
    { success := false, error := jsOr m (.str ( "Failed to get agents"))
      data := .arr [] }), [req])

/-- Gateway method `loginAgent(domain, queueId, agentId)`: the
state-changing POST logging an agent into a queue. -/
def loginAgent (c : Transport) (domain queueId agentId : JsValue) :
    OperationResult × List HttpRequest :=
  let req : HttpRequest :=
    { method := .post
      path := "/domains/" ++ tmpl domain ++ "/callqueues/" ++ tmpl queueId ++
        "/agents/" ++ tmpl agentId ++ "/login" }
  ((match c req with
  | .ok body =>
    { success := true, data := body
      message := .str ( "Agent logged in successfully") }
  | .err m =>
    { success := false, error := jsOr m (.str ( "Failed to login agent"))
      data := .undefined }), [req])

/-- Gateway method `logoutAgent(domain, queueId, agentId)`: the
state-changing POST logging an agent out of a queue. -/
def logoutAgent (c : Transport) (domain queueId agentId : JsValue) :
    OperationResult × List HttpRequest :=
  let req : HttpRequest :=
    { method := .post
      path := "/domains/" ++ tmpl domain ++ "/callqueues/" ++ tmpl queueId ++
        "/agents/" ++ tmpl agentId ++ "/logout" }
  ((match c req with
  | .ok body =>
    { success := true, data := body
      message := .str ( "Agent logged out successfully") }
  | .err m =>
    { success := false, error := jsOr m (.str ( "Failed to logout agent"))
      data := .undefined }), [req])

/-- Gateway method `getAutoAttendants(domain)`: a domain's auto
attendants. -/
def getAutoAttendants (c : Transport) (domain : JsValue) :
    OperationResult × List HttpRequest :=
  let req : HttpRequest :=
    { method := .get, path := "/domains/" ++ tmpl domain ++ "/autoattendants" }
  ((match c req with
  | .ok body => { success := true, data := ensureArray body }
  | .err m =>
    { success := false
      error := jsOr m (.str ( "Failed to get auto attendants"))
      data := .arr [] }), [req])

/-- Gateway method `getUserAnswerRules(userId, domain)`: a user's answer
rules. -/
def getUserAnswerRules (c : Transport) (userId domain : JsValue) :
    OperationResult × List HttpRequest :=
  let req : HttpRequest :=
    { method := .get
      path := "/domains/" ++ tmpl domain ++ "/users/" ++ tmpl userId ++ "/answerrules" }
  ((match c req with
  | .ok body => { success := true, data := ensureArray body }
  | .err m =>
    { success := false, error := jsOr m (.str ( "Failed to get answer rules"))
      data := .arr [] }), [req])

/-- Gateway method `getUserAnswerRule(userId, domain, timeframe)`: one
answer rule. -/
def getUserAnswerRule (c : Transport) (userId domain timeframe : JsValue) :
    OperationResult × List HttpRequest :=
  let req : HttpRequest :=
    { method := .get
      path := "/domains/" ++ tmpl domain ++ "/users/" ++ tmpl userId ++
        "/answerrules/" ++ tmpl timeframe }
  ((match c req with
  | .ok body => { success := true, data := body }
  | .err m =>
    { success := false, error := jsOr m (.str ( "Failed to get answer rule"))
      data := .undefined }), [req])

/-- Gateway method `getUserGreetings(userId, domain)`: a user's
greetings. -/
def getUserGreetings (c : Transport) (userId domain : JsValue) :
    OperationResult × List HttpRequest :=
  let req : HttpRequest :=
    { method := .get
      path := "/domains/" ++ tmpl domain ++ "/users/" ++ tmpl userId ++ "/greetings" }
  ((match c req with
  | .ok body => { success := true, data := ensureArray body }
  | .err m =>
    { success := false, error := jsOr m (.str ( "Failed to get user greetings"))
      data := .arr [] }), [req])

/-- Gateway method `getUserVoicemails(userId, domain)`: a user's
voicemail list. -/
def getUserVoicemails (c : Transport) (userId domain : JsValue) :
    OperationResult × List HttpRequest :=
  let req : HttpRequest :=
    { method := .get
      path := "/domains/" ++ tmpl domain ++ "/users/" ++ tmpl userId ++ "/voicemail" }
  ((match c req with
  | .ok body => { success := true, data := ensureArray body }
  | .err m =>
    { success := false
      error := jsOr m (.str ( "Failed to get user voicemails"))
      data := .arr [] }), [req])

/-- Gateway method `getMusicOnHold(domain)`: a domain's music-on-hold
files. -/
def getMusicOnHold (c : Transport) (domain : JsValue) :
    OperationResult × List HttpRequest :=
  let req : HttpRequest :=
    { method := .get, path := "/domains/" ++ tmpl domain ++ "/moh" }
  ((match c req with
  | .ok body => { success := true, data := ensureArray body }
  | .err m =>
    { success := false, error := jsOr m (.str ( "Failed to get music on hold"))
      data := .arr [] }), [req])

/-- Gateway method `getBilling(domain)`: a domain's billing
information. -/
def getBilling (c : Transport) (domain : JsValue) :
    OperationResult × List HttpRequest :=
  let req : HttpRequest :=
    { method := .get, path := "/domains/" ++ tmpl domain ++ "/billing" }
  ((match c req with
  | .ok body => { success := true, data := body }
  | .err m =>
    { success := false
      error := jsOr m (.str ( "Failed to get billing information"))
      data := .undefined }), [req])

/-- Gateway method `getAgentStatistics(domain, agentId?)`: agent
statistics, narrowed to one agent when `agentId` is truthy. -/
def getAgentStatistics (c : Transport) (domain agentId : JsValue) :
    OperationResult × List HttpRequest :=
  let endpoint :=
    if truthy agentId then
      "/domains/" ++ tmpl domain ++ "/statistics/agent/" ++ tmpl agentId
    else "/domains/" ++ tmpl domain ++ "/statistics/agent"
  let req : HttpRequest := { method := .get, path := endpoint }
  ((match c req with
  | .ok body => { success := true, data := body }
  | .err m =>
    { success := false
      error := jsOr m (.str ( "Failed to get agent statistics"))
      data := .undefined }), [req])

/-- Gateway method `testConnection()`: probes `/domains` with `limit` 1
and reports boolean reachability. -/
def testConnection (c : Transport) : OperationResult × List HttpRequest :=
  let req : HttpRequest :=
    { method := .get, path := "/domains", params := [(( "limit"), .num 1)] }
  ((match c req with
  | .ok _ =>
    { success := true, data := .bool true
      message := .str ( "Connection successful") }
  | .err m =>
    { success := false, error := jsOr m (.str ( "Connection failed"))
      data := .bool false }), [req])

end NetSapiensClient

/-- JSON-RPC error codes as defined by the MCP SDK's `ErrorCode`. -/
def ErrorCode.methodNotFound : Int := -32601

/-- JSON-RPC invalid-params error code from the MCP SDK. -/
def ErrorCode.invalidParams : Int := -32602

/-- JSON-RPC internal-error code from the MCP SDK. -/
def ErrorCode.internalError : Int := -32603

/-- An `McpError`: a protocol-level error with a distinguishing code. -/
structure McpErr where
  code : Int
  message : String
deriving DecidableEq

/-- One content block of a tool reply.  `fields` is the object passed to
`JSON.stringify`, in construction order, with `undefined` standing for a
field whose value is `undefined`. -/
structure ContentBlock where
  type : String
  fields : List (String × JsValue)

/-- The reply returned by a tool handler: a content sequence. -/
structure ToolReply where
  content : List ContentBlock

/-- The keyed fields that survive `JSON.stringify`: keys whose value is
`undefined` are omitted from the serialized object. -/
def serializeFields (fs : List (String × JsValue)) : List (String × JsValue) :=
  fs.filter (fun kv => !(isUndefined kv.2))

/-- The `arguments` object of a tool invocation. -/
abbrev Args := List (String × JsValue)

/-- Property access on the arguments object (for the handlers'
destructuring): `undefined` when the key is absent. -/
def getArg (args : Args) (k : String) : JsValue :=
  (List.lookup k args).getD .undefined

/-- The common reply wrapper: a single text block whose body is the
JSON-serialization of the given object. -/
def textReply (fields : List (String × JsValue)) : ToolReply :=
  { content := [{ type := ( "text"), fields := fields }] }

/-- The envelope object every handler except `handleTestConnection`
passes to `JSON.stringify`:
`{success: result.success, message, data: result.data, error: result.error}`. -/
def mkBody (r : OperationResult) (msg : JsValue) : List (String × JsValue) :=
  [(( "success"), .bool r.success), (( "message"), msg),
   (( "data"), r.data), (( "error"), r.error)]

/-- `result.data?.length || 0`, the element count interpolated into the
list-shaped success messages. -/
def lenOrZero (v : JsValue) : JsValue := jsOr (jsLength v) (.num 0)

namespace OITVOIPMCPServer

/-- Handler for `search_users`. -/
def handleSearchUsers (c : Transport) (args : Args) :
    Except McpErr ToolReply × List HttpRequest :=
  let query := getArg args ( "query")
  let domain := getArg args ( "domain")
  let limit := if isUndefined (getArg args ( "limit")) then .num 20
    else getArg args ( "limit")
  if !truthy query then
    (.error { code := ErrorCode.invalidParams
              message := "Query parameter is required" }, [])
  else
    let r := NetSapiensClient.searchUsers c query domain limit
    (.ok (textReply (mkBody r.1 (.str (if r.1.success then
        "Found " ++ tmpl (lenOrZero r.1.data) ++ " users matching \"" ++
          tmpl query ++ "\"" ++
          (if truthy domain then " in domain " ++ tmpl domain else "")
      else "Search failed: " ++ tmpl r.1.error)))), r.2)

/-- Handler for `get_user`. -/
def handleGetUser (c : Transport) (args : Args) :
    Except McpErr ToolReply × List HttpRequest :=
  let userId := getArg args ( "userId")
  let domain := getArg args ( "domain")
  if !truthy userId || !truthy domain then
    (.error { code := ErrorCode.invalidParams
              message := "userId and domain parameters are required" }, [])
  else
    let r := NetSapiensClient.getUser c userId domain
    (.ok (textReply (mkBody r.1 (.str (if r.1.success then
        "Retrieved user details for " ++ tmpl userId
      else "Failed to get user: " ++ tmpl r.1.error)))), r.2)

/-- Handler for `get_cdr_records` (no required parameters; `limit`
destructuring-defaults to 100). -/
def handleGetCDRRecords (c : Transport) (args : Args) :
    Except McpErr ToolReply × List HttpRequest :=
  let limit := if isUndefined (getArg args ( "limit")) then .num 100
    else getArg args ( "limit")
  let r := NetSapiensClient.getCDRRecords c
    { startDate := getArg args ( "startDate"), endDate := getArg args ( "endDate")
      user := getArg args ( "user"), domain := getArg args ( "domain")
      limit := limit }
  (.ok (textReply (mkBody r.1 (.str (if r.1.success then
      "Retrieved " ++ tmpl (lenOrZero r.1.data) ++ " CDR records"
    else "Failed to get CDR records: " ++ tmpl r.1.error)))), r.2)

/-- Handler for `get_domains` (no required parameters). -/
def handleGetDomains (c : Transport) (_args : Args) :
    Except McpErr ToolReply × List HttpRequest :=
  let r := NetSapiensClient.getDomains c
  (.ok (textReply (mkBody r.1 (.str (if r.1.success then
      "Retrieved " ++ tmpl (lenOrZero r.1.data) ++ " domains"
    else "Failed to get domains: " ++ tmpl r.1.error)))), r.2)

/-- Handler for `get_domain`. -/
def handleGetDomain (c : Transport) (args : Args) :
    Except McpErr ToolReply × List HttpRequest :=
  let domain := getArg args ( "domain")
  if !truthy domain then
    (.error { code := ErrorCode.invalidParams
              message := "domain parameter is required" }, [])
  else
    let r := NetSapiensClient.getDomain c domain
    (.ok (textReply (mkBody r.1 (.str (if r.1.success then
        "Retrieved domain information for " ++ tmpl domain
      else "Failed to get domain: " ++ tmpl r.1.error)))), r.2)

/-- Handler for `get_user_devices`. -/
def handleGetUserDevices (c : Transport) (args : Args) :
    Except McpErr ToolReply × List HttpRequest :=
  let userId := getArg args ( "userId")
  let domain := getArg args ( "domain")
  if !truthy userId || !truthy domain then
    (.error { code := ErrorCode.invalidParams
              message := "userId and domain parameters are required" }, [])
  else
    let r := NetSapiensClient.getUserDevices c userId domain
    (.ok (textReply (mkBody r.1 (.str (if r.1.success then
        "Retrieved " ++ tmpl (lenOrZero r.1.data) ++ " devices for user " ++
          tmpl userId ++ "@" ++ tmpl domain
      else "Failed to get user devices: " ++ tmpl r.1.error)))), r.2)

/-- Handler for `get_phone_numbers`. -/
def handleGetPhoneNumbers (c : Transport) (args : Args) :
    Except McpErr ToolReply × List HttpRequest :=
  let domain := getArg args ( "domain")
  let limit := getArg args ( "limit")
  if !truthy domain then
    (.error { code := ErrorCode.invalidParams
              message := "domain parameter is required" }, [])
  else
    let r := NetSapiensClient.getPhoneNumbers c domain limit
    (.ok (textReply (mkBody r.1 (.str (if r.1.success then
        "Retrieved " ++ tmpl (lenOrZero r.1.data) ++
          " phone numbers for domain " ++ tmpl domain
      else "Failed to get phone numbers: " ++ tmpl r.1.error)))), r.2)

/-- Handler for `get_phone_number`. -/
def handleGetPhoneNumber (c : Transport) (args : Args) :
    Except McpErr ToolReply × List HttpRequest :=
  let domain := getArg args ( "domain")
  let phoneNumber := getArg args ( "phoneNumber")
  if !truthy domain || !truthy phoneNumber then
    (.error { code := ErrorCode.invalidParams
              message := "domain and phoneNumber parameters are required" }, [])
  else
    let r := NetSapiensClient.getPhoneNumber c domain phoneNumber
    (.ok (textReply (mkBody r.1 (.str (if r.1.success then
        "Retrieved phone number details for " ++ tmpl phoneNumber
      else "Failed to get phone number: " ++ tmpl r.1.error)))), r.2)

/-- Handler for `get_call_queues`. -/
def handleGetCallQueues (c : Transport) (args : Args) :
    Except McpErr ToolReply × List HttpRequest :=
  let domain := getArg args ( "domain")
  if !truthy domain then
    (.error { code := ErrorCode.invalidParams
              message := "domain parameter is required" }, [])
  else
    let r := NetSapiensClient.getCallQueues c domain
    (.ok (textReply (mkBody r.1 (.str (if r.1.success then
        "Retrieved " ++ tmpl (lenOrZero r.1.data) ++
          " call queues for domain " ++ tmpl domain
      else "Failed to get call queues: " ++ tmpl r.1.error)))), r.2)

/-- Handler for `get_call_queue`. -/
def handleGetCallQueue (c : Transport) (args : Args) :
    Except McpErr ToolReply × List HttpRequest :=
  let domain := getArg args ( "domain")
  let queueId := getArg args ( "queueId")
  if !truthy domain || !truthy queueId then
    (.error { code := ErrorCode.invalidParams
              message := "domain and queueId parameters are required" }, [])
  else
    let r := NetSapiensClient.getCallQueue c domain queueId
    (.ok (textReply (mkBody r.1 (.str (if r.1.success then
        "Retrieved call queue details for " ++ tmpl queueId
      else "Failed to get call queue: " ++ tmpl r.1.error)))), r.2)

/-- Handler for `get_call_queue_agents`. -/
def handleGetCallQueueAgents (c : Transport) (args : Args) :
    Except McpErr ToolReply × List HttpRequest :=
  let domain := getArg args ( "domain")
  let queueId := getArg args ( "queueId")
  if !truthy domain || !truthy queueId then
    (.error { code := ErrorCode.invalidParams
              message := "domain and queueId parameters are required" }, [])
  else
    let r := NetSapiensClient.getCallQueueAgents c domain queueId
    (.ok (textReply (mkBody r.1 (.str (if r.1.success then
        "Retrieved " ++ tmpl (lenOrZero r.1.data) ++
          " agents for call queue " ++ tmpl queueId
      else "Failed to get call queue agents: " ++ tmpl r.1.error)))), r.2)

/-- Handler for `get_agents`. -/
def handleGetAgents (c : Transport) (args : Args) :
    Except McpErr ToolReply × List HttpRequest :=
  let domain := getArg args ( "domain")
  if !truthy domain then
    (.error { code := ErrorCode.invalidParams
              message := "domain parameter is required" }, [])
  else
    let r := NetSapiensClient.getAgents c domain
    (.ok (textReply (mkBody r.1 (.str (if r.1.success then
        "Retrieved " ++ tmpl (lenOrZero r.1.data) ++ " agents for domain " ++
          tmpl domain
      else "Failed to get agents: " ++ tmpl r.1.error)))), r.2)

/-- Handler for `login_agent`. -/
def handleLoginAgent (c : Transport) (args : Args) :
    Except McpErr ToolReply × List HttpRequest :=
  let domain := getArg args ( "domain")
  let queueId := getArg args ( "queueId")
  let agentId := getArg args ( "agentId")
  if !truthy domain || !truthy queueId || !truthy agentId then
    (.error { code := ErrorCode.invalidParams
              message := "domain, queueId, and agentId parameters are required" }, [])
  else
    let r := NetSapiensClient.loginAgent c domain queueId agentId
    (.ok (textReply (mkBody r.1 (jsOr r.1.message (.str (if r.1.success then
        "Agent logged in successfully" else "Failed to login agent"))))), r.2)

/-- Handler for `logout_agent`. -/
def handleLogoutAgent (c : Transport) (args : Args) :
    Except McpErr ToolReply × List HttpRequest :=
  let domain := getArg args ( "domain")
  let queueId := getArg args ( "queueId")
  let agentId := getArg args ( "agentId")
  if !truthy domain || !truthy queueId || !truthy agentId then
    (.error { code := ErrorCode.invalidParams
              message := "domain, queueId, and agentId parameters are required" }, [])
  else
    let r := NetSapiensClient.logoutAgent c domain queueId agentId
    (.ok (textReply (mkBody r.1 (jsOr r.1.message (.str (if r.1.success then
        "Agent logged out successfully" else "Failed to logout agent"))))), r.2)

/-- Handler for `get_auto_attendants`. -/
def handleGetAutoAttendants (c : Transport) (args : Args) :
    Except McpErr ToolReply × List HttpRequest :=
  let domain := getArg args ( "domain")
  if !truthy domain then
    (.error { code := ErrorCode.invalidParams
              message := "domain parameter is required" }, [])
  else
    let r := NetSapiensClient.getAutoAttendants c domain
    (.ok (textReply (mkBody r.1 (.str (if r.1.success then
        "Retrieved " ++ tmpl (lenOrZero r.1.data) ++
          " auto attendants for domain " ++ tmpl domain
      else "Failed to get auto attendants: " ++ tmpl r.1.error)))), r.2)

/-- Handler for `get_user_answer_rules`. -/
def handleGetUserAnswerRules (c : Transport) (args : Args) :
    Except McpErr ToolReply × List HttpRequest :=
  let userId := getArg args ( "userId")
  let domain := getArg args ( "domain")
  if !truthy userId || !truthy domain then
    (.error { code := ErrorCode.invalidParams
              message := "userId and domain parameters are required" }, [])
  else
    let r := NetSapiensClient.getUserAnswerRules c userId domain
    (.ok (textReply (mkBody r.1 (.str (if r.1.success then
        "Retrieved " ++ tmpl (lenOrZero r.1.data) ++
          " answer rules for user " ++ tmpl userId ++ "@" ++ tmpl domain
      else "Failed to get answer rules: " ++ tmpl r.1.error)))), r.2)

/-- Handler for `get_user_answer_rule`. -/
def handleGetUserAnswerRule (c : Transport) (args : Args) :
    Except McpErr ToolReply × List HttpRequest :=
  let userId := getArg args ( "userId")
  let domain := getArg args ( "domain")
  let timeframe := getArg args ( "timeframe")
  if !truthy userId || !truthy domain || !truthy timeframe then
    (.error { code := ErrorCode.invalidParams
              message := "userId, domain, and timeframe parameters are required" }, [])
  else
    let r := NetSapiensClient.getUserAnswerRule c userId domain timeframe
    (.ok (textReply (mkBody r.1 (.str (if r.1.success then
        "Retrieved answer rule for " ++ tmpl userId ++ "@" ++ tmpl domain ++
          " timeframe " ++ tmpl timeframe
      else "Failed to get answer rule: " ++ tmpl r.1.error)))), r.2)

/-- Handler for `get_user_greetings`. -/
def handleGetUserGreetings (c : Transport) (args : Args) :
    Except McpErr ToolReply × List HttpRequest :=
  let userId := getArg args ( "userId")
  let domain := getArg args ( "domain")
  if !truthy userId || !truthy domain then
    (.error { code := ErrorCode.invalidParams
              message := "userId and domain parameters are required" }, [])
  else
    let r := NetSapiensClient.getUserGreetings c userId domain
    (.ok (textReply (mkBody r.1 (.str (if r.1.success then
        "Retrieved " ++ tmpl (lenOrZero r.1.data) ++ " greetings for user " ++
          tmpl userId ++ "@" ++ tmpl domain
      else "Failed to get user greetings: " ++ tmpl r.1.error)))), r.2)

/-- Handler for `get_user_voicemails`. -/
def handleGetUserVoicemails (c : Transport) (args : Args) :
    Except McpErr ToolReply × List HttpRequest :=
  let userId := getArg args ( "userId")
  let domain := getArg args ( "domain")
  if !truthy userId || !truthy domain then
    (.error { code := ErrorCode.invalidParams
              message := "userId and domain parameters are required" }, [])
  else
    let r := NetSapiensClient.getUserVoicemails c userId domain
    (.ok (textReply (mkBody r.1 (.str (if r.1.success then
        "Retrieved " ++ tmpl (lenOrZero r.1.data) ++ " voicemails for user " ++
          tmpl userId ++ "@" ++ tmpl domain
      else "Failed to get user voicemails: " ++ tmpl r.1.error)))), r.2)

/-- Handler for `get_music_on_hold`. -/
def handleGetMusicOnHold (c : Transport) (args : Args) :
    Except McpErr ToolReply × List HttpRequest :=
  let domain := getArg args ( "domain")
  if !truthy domain then
    (.error { code := ErrorCode.invalidParams
              message := "domain parameter is required" }, [])
  else
    let r := NetSapiensClient.getMusicOnHold c domain
    (.ok (textReply (mkBody r.1 (.str (if r.1.success then
        "Retrieved " ++ tmpl (lenOrZero r.1.data) ++
          " music on hold files for domain " ++ tmpl domain
      else "Failed to get music on hold: " ++ tmpl r.1.error)))), r.2)

/-- Handler for `get_billing`. -/
def handleGetBilling (c : Transport) (args : Args) :
    Except McpErr ToolReply × List HttpRequest :=
  let domain := getArg args ( "domain")
  if !truthy domain then
    (.error { code := ErrorCode.invalidParams
              message := "domain parameter is required" }, [])
  else
    let r := NetSapiensClient.getBilling c domain
    (.ok (textReply (mkBody r.1 (.str (if r.1.success then
        "Retrieved billing information for domain " ++ tmpl domain
      else "Failed to get billing information: " ++ tmpl r.1.error)))), r.2)

/-- Handler for `get_agent_statistics` (`agentId` is optional). -/
def handleGetAgentStatistics (c : Transport) (args : Args) :
    Except McpErr ToolReply × List HttpRequest :=
  let domain := getArg args ( "domain")
  let agentId := getArg args ( "agentId")
  if !truthy domain then
    (.error { code := ErrorCode.invalidParams
              message := "domain parameter is required" }, [])
  else
    let r := NetSapiensClient.getAgentStatistics c domain agentId
    (.ok (textReply (mkBody r.1 (.str (if r.1.success then
        "Retrieved agent statistics for domain " ++ tmpl domain ++
          (if truthy agentId then " (agent: " ++ tmpl agentId ++ ")" else "")
      else "Failed to get agent statistics: " ++ tmpl r.1.error)))), r.2)

/-- Handler for `test_connection`: its serialized object has only
`success`, `message` and `error` fields — the `data` of the gateway
result is not copied into the reply. -/
def handleTestConnection (c : Transport) (_args : Args) :
    Except McpErr ToolReply × List HttpRequest :=
  let r := NetSapiensClient.testConnection c
  (.ok (textReply
    [(( "success"), .bool r.1.success),
     (( "message"), jsOr r.1.message (.str (if r.1.success then
        "Connection successful" else "Connection failed"))),
     (( "error"), r.1.error)]), r.2)

/-- The tool-call dispatcher: the `switch` on the tool name in
`setupToolHandlers`.  An unknown name raises a `MethodNotFound`
`McpError`; a handler's own `McpError` passes through the surrounding
`catch` unchanged. -/
def callTool (c : Transport) (name : String) (args : Args) :
    Except McpErr ToolReply × List HttpRequest :=
  if name = ( "search_users") then handleSearchUsers c args
  else if name = ( "get_user") then handleGetUser c args
  else if name = ( "get_cdr_records") then handleGetCDRRecords c args
  else if name = ( "get_domains") then handleGetDomains c args
  else if name = ( "get_domain") then handleGetDomain c args
  else if name = ( "get_user_devices") then handleGetUserDevices c args
  else if name = ( "get_phone_numbers") then handleGetPhoneNumbers c args
  else if name = ( "get_phone_number") then handleGetPhoneNumber c args
  else if name = ( "get_call_queues") then handleGetCallQueues c args
  else if name = ( "get_call_queue") then handleGetCallQueue c args
  else if name = ( "get_call_queue_agents") then handleGetCallQueueAgents c args
  else if name = ( "get_agents") then handleGetAgents c args
  else if name = ( "login_agent") then handleLoginAgent c args
  else if name = ( "logout_agent") then handleLogoutAgent c args
  else if name = ( "get_auto_attendants") then handleGetAutoAttendants c args
  else if name = ( "get_user_answer_rules") then handleGetUserAnswerRules c args
  else if name = ( "get_user_answer_rule") then handleGetUserAnswerRule c args
  else if name = ( "get_user_greetings") then handleGetUserGreetings c args
  else if name = ( "get_user_voicemails") then handleGetUserVoicemails c args
  else if name = ( "get_music_on_hold") then handleGetMusicOnHold c args
  else if name = ( "get_billing") then handleGetBilling c args
  else if name = ( "get_agent_statistics") then handleGetAgentStatistics c args
  else if name = ( "test_connection") then handleTestConnection c args
  else (.error { code := ErrorCode.methodNotFound
                 message := "Unknown tool: " ++ name }, [])

end OITVOIPMCPServer

/-- One property of a tool's JSON input schema: its name, its declared
type, and (when present) its declared default. -/
structure SchemaProp where
  pname : String
  ptype : String
  pdefault : JsValue := .undefined

/-- A `ToolDescriptor` of the catalog: name, description, input-schema
properties and the subset of required property names. -/
structure ToolDescriptor where
  name : String
  description : String
  props : List SchemaProp := []
  required : List String := []

/-- The fixed ordered tool catalog returned by the `ListTools` request
handler in `setupToolHandlers` (the same literal on every call). -/
def listTools : List ToolDescriptor :=
  [{ name := "search_users"
     description := "Search for users in the NetSapiens system"
     props := [{ pname := "query", ptype := "string" },
               { pname := "domain", ptype := "string" },
               { pname := "limit", ptype := "number", pdefault := .num 20 }]
     required := [( "query")] },
   { name := "get_user"
     description := "Get detailed information about a specific user"
     props := [{ pname := "userId", ptype := "string" },
               { pname := "domain", ptype := "string" }]
     required := [( "userId"), ( "domain")] },
   { name := "get_cdr_records"
     description := "Retrieve call detail records (CDR)"
     props := [{ pname := "startDate", ptype := "string" },
               { pname := "endDate", ptype := "string" },
               { pname := "user", ptype := "string" },
               { pname := "domain", ptype := "string" },
               { pname := "limit", ptype := "number", pdefault := .num 100 }] },
   { name := "get_domains"
     description := "Get list of domains in the NetSapiens system" },
   { name := "get_domain"
     description := "Get detailed information about a specific domain"
     props := [{ pname := "domain", ptype := "string" }]
     required := [( "domain")] },
   { name := "get_user_devices"
     description := "Get devices assigned to a specific user"
     props := [{ pname := "userId", ptype := "string" },
               { pname := "domain", ptype := "string" }]
     required := [( "userId"), ( "domain")] },
   { name := "get_phone_numbers"
     description := "Get phone numbers for a domain"
     props := [{ pname := "domain", ptype := "string" },
               { pname := "limit", ptype := "number" }]
     required := [( "domain")] },
   { name := "get_phone_number"
     description := "Get details of a specific phone number"
     props := [{ pname := "domain", ptype := "string" },
               { pname := "phoneNumber", ptype := "string" }]
     required := [( "domain"), ( "phoneNumber")] },
   { name := "get_call_queues"
     description := "Get call queues for a domain"
     props := [{ pname := "domain", ptype := "string" }]
     required := [( "domain")] },
   { name := "get_call_queue"
     description := "Get details of a specific call queue"
     props := [{ pname := "domain", ptype := "string" },
               { pname := "queueId", ptype := "string" }]
     required := [( "domain"), ( "queueId")] },
   { name := "get_call_queue_agents"
     description := "Get agents assigned to a call queue"
     props := [{ pname := "domain", ptype := "string" },
               { pname := "queueId", ptype := "string" }]
     required := [( "domain"), ( "queueId")] },
   { name := "get_agents"
     description := "Get agents for a domain"
     props := [{ pname := "domain", ptype := "string" }]
     required := [( "domain")] },
   { name := "login_agent"
     description := "Login an agent to a call queue"
     props := [{ pname := "domain", ptype := "string" },
               { pname := "queueId", ptype := "string" },
               { pname := "agentId", ptype := "string" }]
     required := [( "domain"), ( "queueId"), ( "agentId")] },
   { name := "logout_agent"
     description := "Logout an agent from a call queue"
     props := [{ pname := "domain", ptype := "string" },
               { pname := "queueId", ptype := "string" },
               { pname := "agentId", ptype := "string" }]
     required := [( "domain"), ( "queueId"), ( "agentId")] },
   { name := "get_auto_attendants"
     description := "Get auto attendants for a domain"
     props := [{ pname := "domain", ptype := "string" }]
     required := [( "domain")] },
   { name := "get_user_answer_rules"
     description := "Get answer rules for a user"
     props := [{ pname := "userId", ptype := "string" },
               { pname := "domain", ptype := "string" }]
     required := [( "userId"), ( "domain")] },
   { name := "get_user_answer_rule"
     description := "Get specific answer rule for a user"
     props := [{ pname := "userId", ptype := "string" },
               { pname := "domain", ptype := "string" },
               { pname := "timeframe", ptype := "string" }]
     required := [( "userId"), ( "domain"), ( "timeframe")] },
   { name := "get_user_greetings"
     description := "Get greetings for a user"
     props := [{ pname := "userId", ptype := "string" },
               { pname := "domain", ptype := "string" }]
     required := [( "userId"), ( "domain")] },
   { name := "get_user_voicemails"
     description := "Get voicemails for a user"
     props := [{ pname := "userId", ptype := "string" },
               { pname := "domain", ptype := "string" }]
     required := [( "userId"), ( "domain")] },
   { name := "get_music_on_hold"
     description := "Get music on hold files for a domain"
     props := [{ pname := "domain", ptype := "string" }]
     required := [( "domain")] },
   { name := "get_billing"
     description := "Get billing information for a domain"
     props := [{ pname := "domain", ptype := "string" }]
     required := [( "domain")] },
   { name := "get_agent_statistics"
     description := "Get agent statistics for a domain"
     props := [{ pname := "domain", ptype := "string" },
               { pname := "agentId", ptype := "string" }]
     required := [( "domain")] },
   { name := "test_connection"
     description := "Test connectivity to NetSapiens API" }]

/-- The 23 tool names of the catalog, in catalog order. -/
def catalogNames : List String := listTools.map (fun d => d.name)

/-- The required-parameter names the catalog descriptor of a tool
declares (empty for a name not in the catalog). -/
def requiredParams (n : String) : List String :=
  ((listTools.find? (fun d => d.name == n)).map (fun d => d.required)).getD []

/-- Whether an argument map passes the dispatcher's validation for a
tool: every catalog-required parameter is present and truthy. -/
def validArgs (n : String) (args : Args) : Bool :=
  (requiredParams n).all (fun p => truthy (getArg args p))

/-- ASCII lower-casing of one character. -/
def lowerChar (c : Char) : Char :=
  if 'A' ≤ c ∧ c ≤ 'Z' then Char.ofNat (c.toNat + 32) else c

/-- Whether the pattern is an initial segment of the character list. -/
def leadsWith : List Char → List Char → Bool
| [], _ => true
| _ :: _, [] => false
| p :: ps, c :: cs => (p == c) && leadsWith ps cs

/-- Whether the pattern occurs as a contiguous run of the character
list. -/
def hasSub (pat : List Char) : List Char → Bool
| [] => leadsWith pat []
| c :: cs => leadsWith pat (c :: cs) || hasSub pat cs

/-- Whether a message names a parameter, compared case-insensitively
(the `search_users` message capitalizes the `query` parameter). -/
def mentionsCI (p msg : String) : Bool :=
  hasSub (p.data.map lowerChar) (msg.data.map lowerChar)

/-- C1: on any thrown transport/HTTP failure, every one of the 23
`NetSapiensClient` gateway methods returns normally with an envelope in
which `success` is `false`, `error` is the thrown error's `message` when
that is truthy and otherwise the operation-specific fixed fallback
string (this is `jsOr`, the source's `error.message || '...'`), and
`data` is the type-appropriate empty value: `[]` for the list-returning
operations, `undefined` for the single-entity operations, and `false`
for the boolean probe `testConnection`.  Returning normally is inherent
to the embedding: each method is a total function into
`OperationResult × List HttpRequest`. -/
theorem gateway_failure_envelope (m x y z : JsValue)
    (p : NetSapiensClient.CDRParams) :
    (NetSapiensClient.searchUsers (failT m) x y z).1 =
      { success := false, error := jsOr m (.str ( "Failed to search users"))
        data := .arr [] } ∧
    (NetSapiensClient.getUser (failT m) x y).1 =
      { success := false, error := jsOr m (.str ( "Failed to get user"))
        data := .undefined } ∧
    (NetSapiensClient.getCDRRecords (failT m) p).1 =
      { success := false, error := jsOr m (.str ( "Failed to get CDR records"))
        data := .arr [] } ∧
    (NetSapiensClient.getDomains (failT m)).1 =
      { success := false, error := jsOr m (.str ( "Failed to get domains"))
        data := .arr [] } ∧
    (NetSapiensClient.getDomain (failT m) x).1 =
      { success := false, error := jsOr m (.str ( "Failed to get domain"))
        data := .undefined } ∧
    (NetSapiensClient.getUserDevices (failT m) x y).1 =
      { success := false, error := jsOr m (.str ( "Failed to get user devices"))
        data := .arr [] } ∧
    (NetSapiensClient.getPhoneNumbers (failT m) x y).1 =
      { success := false, error := jsOr m (.str ( "Failed to get phone numbers"))
        data := .arr [] } ∧
    (NetSapiensClient.getPhoneNumber (failT m) x y).1 =
      { success := false, error := jsOr m (.str ( "Failed to get phone number"))
        data := .undefined } ∧
    (NetSapiensClient.getCallQueues (failT m) x).1 =
      { success := false, error := jsOr m (.str ( "Failed to get call queues"))
        data := .arr [] } ∧
    (NetSapiensClient.getCallQueue (failT m) x y).1 =
      { success := false, error := jsOr m (.str ( "Failed to get call queue"))
        data := .undefined } ∧
    (NetSapiensClient.getCallQueueAgents (failT m) x y).1 =
      { success := false
        error := jsOr m (.str ( "Failed to get call queue agents"))
        data := .arr [] } ∧
    (NetSapiensClient.getAgents (failT m) x).1 =
      { success := false, error := jsOr m (.str ( "Failed to get agents"))
        data := .arr [] } ∧
    (NetSapiensClient.loginAgent (failT m) x y z).1 =
      { success := false, error := jsOr m (.str ( "Failed to login agent"))
        data := .undefined } ∧
    (NetSapiensClient.logoutAgent (failT m) x y z).1 =
      { success := false, error := jsOr m (.str ( "Failed to logout agent"))
        data := .undefined } ∧
    (NetSapiensClient.getAutoAttendants (failT m) x).1 =
      { success := false
        error := jsOr m (.str ( "Failed to get auto attendants"))
        data := .arr [] } ∧
    (NetSapiensClient.getUserAnswerRules (failT m) x y).1 =
      { success := false, error := jsOr m (.str ( "Failed to get answer rules"))
        data := .arr [] } ∧
    (NetSapiensClient.getUserAnswerRule (failT m) x y z).1 =
      { success := false, error := jsOr m (.str ( "Failed to get answer rule"))
        data := .undefined } ∧
    (NetSapiensClient.getUserGreetings (failT m) x y).1 =
      { success := false
        error := jsOr m (.str ( "Failed to get user greetings"))
        data := .arr [] } ∧
    (NetSapiensClient.getUserVoicemails (failT m) x y).1 =
      { success := false
        error := jsOr m (.str ( "Failed to get user voicemails"))
        data := .arr [] } ∧
    (NetSapiensClient.getMusicOnHold (failT m) x).1 =
      { success := false, error := jsOr m (.str ( "Failed to get music on hold"))
        data := .arr [] } ∧
    (NetSapiensClient.getBilling (failT m) x).1 =
      { success := false
        error := jsOr m (.str ( "Failed to get billing information"))
        data := .undefined } ∧
    (NetSapiensClient.getAgentStatistics (failT m) x y).1 =
      { success := false
        error := jsOr m (.str ( "Failed to get agent statistics"))
        data := .undefined } ∧
    (NetSapiensClient.testConnection (failT m)).1 =
      { success := false, error := jsOr m (.str ( "Connection failed"))
        data := .bool false } :=
  ⟨rfl, rfl, rfl, rfl, rfl, rfl, rfl, rfl, rfl, rfl, rfl, rfl, rfl, rfl, rfl,
   rfl, rfl, rfl, rfl, rfl, rfl, rfl, rfl⟩

/-- C8: `testConnection` issues the single `get_domains` probe request
(`GET /domains` with `limit` 1); any 2xx body — including an empty
domain list — yields `success = true` with boolean `data = true`, and
any transport failure yields `success = false` with boolean
`data = false`.  The dispatcher's `test_connection` tool issues exactly
the same single request. -/
theorem test_connection_probe (body m : JsValue) (args : Args) :
    NetSapiensClient.testConnection (okT body) =
      ({ success := true, data := .bool true
         message := .str ( "Connection successful") },
       [{ method := .get, path := "/domains"
          params := [(( "limit"), .num 1)] }]) ∧
    NetSapiensClient.testConnection (failT m) =
      ({ success := false, error := jsOr m (.str ( "Connection failed"))
         data := .bool false },
       [{ method := .get, path := "/domains"
          params := [(( "limit"), .num 1)] }]) ∧
    (OITVOIPMCPServer.callTool (okT body) ( "test_connection") args).2 =
      [{ method := .get, path := "/domains"
         params := [(( "limit"), .num 1)] }] :=
  ⟨rfl, rfl, rfl⟩

/-- A value that is not an array is wrapped into a singleton list by the
list-leniency expression. -/
theorem ensureArray_not_arr {v : JsValue} (h : isArr v = false) :
    ensureArray v = .arr [v] := by
  simp [ensureArray, h]

/-- An array passes through the list-leniency expression unchanged. -/
theorem ensureArray_arr (xs : List JsValue) :
    ensureArray (.arr xs) = .arr xs := by
  simp [ensureArray, isArr]

/-- C5: for every list-returning gateway operation, a 2xx response whose
body is not an array yields `success = true` with `data` the one-element
list containing the body, and a 2xx response whose body is already an
array yields `data` equal to that array unchanged. -/
theorem gateway_list_leniency (body x y z : JsValue) (xs : List JsValue)
    (p : NetSapiensClient.CDRParams) (hb : isArr body = false) :
    ((NetSapiensClient.searchUsers (okT body) x y z).1 =
      { success := true, data := .arr [body] } ∧
     (NetSapiensClient.searchUsers (okT (.arr xs)) x y z).1 =
      { success := true, data := .arr xs }) ∧
    ((NetSapiensClient.getCDRRecords (okT body) p).1 =
      { success := true, data := .arr [body] } ∧
     (NetSapiensClient.getCDRRecords (okT (.arr xs)) p).1 =
      { success := true, data := .arr xs }) ∧
    ((NetSapiensClient.getDomains (okT body)).1 =
      { success := true, data := .arr [body] } ∧
     (NetSapiensClient.getDomains (okT (.arr xs))).1 =
      { success := true, data := .arr xs }) ∧
    ((NetSapiensClient.getUserDevices (okT body) x y).1 =
      { success := true, data := .arr [body] } ∧
     (NetSapiensClient.getUserDevices (okT (.arr xs)) x y).1 =
      { success := true, data := .arr xs }) ∧
    ((NetSapiensClient.getPhoneNumbers (okT body) x y).1 =
      { success := true, data := .arr [body] } ∧
     (NetSapiensClient.getPhoneNumbers (okT (.arr xs)) x y).1 =
      { success := true, data := .arr xs }) ∧
    ((NetSapiensClient.getCallQueues (okT body) x).1 =
      { success := true, data := .arr [body] } ∧
     (NetSapiensClient.getCallQueues (okT (.arr xs)) x).1 =
      { success := true, data := .arr xs }) ∧
    ((NetSapiensClient.getCallQueueAgents (okT body) x y).1 =
      { success := true, data := .arr [body] } ∧
     (NetSapiensClient.getCallQueueAgents (okT (.arr xs)) x y).1 =
      { success := true, data := .arr xs }) ∧
    ((NetSapiensClient.getAgents (okT body) x).1 =
      { success := true, data := .arr [body] } ∧
     (NetSapiensClient.getAgents (okT (.arr xs)) x).1 =
      { success := true, data := .arr xs }) ∧
    ((NetSapiensClient.getAutoAttendants (okT body) x).1 =
      { success := true, data := .arr [body] } ∧
     (NetSapiensClient.getAutoAttendants (okT (.arr xs)) x).1 =
      { success := true, data := .arr xs }) ∧
    ((NetSapiensClient.getUserAnswerRules (okT body) x y).1 =
      { success := true, data := .arr [body] } ∧
     (NetSapiensClient.getUserAnswerRules (okT (.arr xs)) x y).1 =
      { success := true, data := .arr xs }) ∧
    ((NetSapiensClient.getUserGreetings (okT body) x y).1 =
      { success := true, data := .arr [body] } ∧
     (NetSapiensClient.getUserGreetings (okT (.arr xs)) x y).1 =
      { success := true, data := .arr xs }) ∧
    ((NetSapiensClient.getUserVoicemails (okT body) x y).1 =
      { success := true, data := .arr [body] } ∧
     (NetSapiensClient.getUserVoicemails (okT (.arr xs)) x y).1 =
      { success := true, data := .arr xs }) ∧
    ((NetSapiensClient.getMusicOnHold (okT body) x).1 =
      { success := true, data := .arr [body] } ∧
     (NetSapiensClient.getMusicOnHold (okT (.arr xs)) x).1 =
      { success := true, data := .arr xs }) := by
  refine ⟨⟨?_, ?_⟩, ⟨?_, ?_⟩, ⟨?_, ?_⟩, ⟨?_, ?_⟩, ⟨?_, ?_⟩, ⟨?_, ?_⟩,
    ⟨?_, ?_⟩, ⟨?_, ?_⟩, ⟨?_, ?_⟩, ⟨?_, ?_⟩, ⟨?_, ?_⟩, ⟨?_, ?_⟩, ⟨?_, ?_⟩⟩ <;>
  simp [NetSapiensClient.searchUsers, NetSapiensClient.getCDRRecords,
    NetSapiensClient.getDomains, NetSapiensClient.getUserDevices,
    NetSapiensClient.getPhoneNumbers, NetSapiensClient.getCallQueues,
    NetSapiensClient.getCallQueueAgents, NetSapiensClient.getAgents,
    NetSapiensClient.getAutoAttendants, NetSapiensClient.getUserAnswerRules,
    NetSapiensClient.getUserGreetings, NetSapiensClient.getUserVoicemails,
    NetSapiensClient.getMusicOnHold, okT,
    ensureArray_arr, ensureArray_not_arr hb]

/-- Witness for C5 at a concrete non-array body: the bare object
`{user: "alice"}` returned for a `searchUsers` probe is wrapped into a
one-element list, and a two-element array passes through unchanged. -/
theorem gateway_list_leniency_witness :
    isArr (.obj [(( "user"), .str ( "alice"))]) = false ∧
    (NetSapiensClient.searchUsers (okT (.obj [(( "user"), .str ( "alice"))]))
        (.str ( "alice")) .undefined .undefined).1 =
      { success := true, data := .arr [.obj [(( "user"), .str ( "alice"))]] } ∧
    (NetSapiensClient.getDomains (okT (.arr [.obj [], .obj []]))).1 =
      { success := true, data := .arr [.obj [], .obj []] } := by
  refine ⟨rfl, ?_, ?_⟩
  · exact (gateway_list_leniency (.obj [(( "user"), .str ( "alice"))])
      (.str ( "alice")) .undefined .undefined [] {} rfl).1.1
  · exact (gateway_list_leniency .null .undefined .undefined .undefined
      [.obj [], .obj []] {} rfl).2.2.1.2

/-- C7: `getCDRRecords` selects its path by scope — the user-specific
CDR endpoint when both `user` and `domain` are truthy, the domain CDR
endpoint when only `domain` is truthy, and the global `/cdrs` listing
otherwise — and always attaches `start_time`, `end_time` and a `limit`
falsy-defaulted to 100 as its query parameters.  Additionally, when the
`get_cdr_records` tool is invoked without a `limit` argument, the
issued request carries `limit` 100 (the handler's declared default). -/
theorem cdr_scope_selection :
    (∀ (c : Transport) (p : NetSapiensClient.CDRParams),
      ∃ req, (NetSapiensClient.getCDRRecords c p).2 = [req] ∧
        req.method = .get ∧
        req.params = [(( "start_time"), p.startDate), (( "end_time"), p.endDate),
                      (( "limit"), jsOr p.limit (.num 100))] ∧
        (truthy p.user = true → truthy p.domain = true →
          req.path = "/domains/" ++ tmpl p.domain ++ "/users/" ++
            tmpl p.user ++ "/cdrs") ∧
        (truthy p.user = false → truthy p.domain = true →
          req.path = "/domains/" ++ tmpl p.domain ++ "/cdrs") ∧
        (truthy p.domain = false → req.path = "/cdrs")) ∧
    (∀ (c : Transport) (args : Args),
      isUndefined (getArg args ( "limit")) = true →
      ∀ req ∈ (OITVOIPMCPServer.callTool c ( "get_cdr_records") args).2,
        (( "limit"), JsValue.num 100) ∈ req.params) := by
  constructor
  · intro c p
    refine ⟨_, rfl, rfl, rfl, ?_, ?_, ?_⟩
    · intro h1 h2; simp [h1, h2]
    · intro h1 h2; simp [h1, h2]
    · intro h1; simp [h1]
  · intro c args h req hreq
    have he : req = _ := List.eq_of_mem_singleton hreq
    subst he
    simp [OITVOIPMCPServer.handleGetCDRRecords, NetSapiensClient.getCDRRecords,
      h, jsOr, truthy]

/-- Witness for C7: a user+domain-scoped request at concrete inputs, and
the `limit` 100 default on a dispatch with empty arguments. -/
theorem cdr_scope_selection_witness :
    (∃ req, (NetSapiensClient.getCDRRecords (okT .null)
        { user := .str ( "alice"), domain := .str ( "example.com")
          startDate := .str ( "2024-01-01") }).2 = [req] ∧
      req.method = .get ∧
      req.params = [(( "start_time"), .str ( "2024-01-01")),
                    (( "end_time"), .undefined), (( "limit"), .num 100)] ∧
      req.path = "/domains/example.com/users/alice/cdrs") ∧
    (( "limit"), JsValue.num 100) ∈
      (HttpRequest.params
        { method := .get, path := "/cdrs"
          params := [(( "start_time"), .undefined), (( "end_time"), .undefined),
                     (( "limit"), .num 100)] }) := by
  constructor
  · obtain ⟨req, h1, h2, h3, h4, _, _⟩ := cdr_scope_selection.1 (okT .null)
      { user := .str ( "alice"), domain := .str ( "example.com")
        startDate := .str ( "2024-01-01") }
    refine ⟨req, h1, h2, h3, ?_⟩
    rw [h4 rfl rfl]
    simp [tmpl]
  · exact cdr_scope_selection.2 (okT .null) [] rfl
      { method := .get, path := "/cdrs"
        params := [(( "start_time"), .undefined), (( "end_time"), .undefined),
                     (( "limit"), .num 100)] }
      (List.Mem.head _)

/-- C9: when `user` is truthy but `domain` is not, `getCDRRecords` sends
the request to the global `/cdrs` endpoint and the `user` value is
transmitted nowhere — the path is the constant `/cdrs`, the query
parameters are only `start_time`, `end_time` and `limit`, and the whole
call is invariant under changing the `user` value. -/
theorem cdr_user_ignored (c : Transport) (p : NetSapiensClient.CDRParams)
    (_hu : truthy p.user = true) (hd : truthy p.domain = false) :
    (NetSapiensClient.getCDRRecords c p).2 =
      [{ method := .get, path := "/cdrs"
         params := [(( "start_time"), p.startDate), (( "end_time"), p.endDate),
                    (( "limit"), jsOr p.limit (.num 100))] }] ∧
    (∀ u1 u2, NetSapiensClient.getCDRRecords c { p with user := u1 } =
      NetSapiensClient.getCDRRecords c { p with user := u2 }) := by
  constructor
  · simp [NetSapiensClient.getCDRRecords, hd]
  · intro u1 u2
    simp [NetSapiensClient.getCDRRecords, hd]

/-- Witness for C9: with `user` `"alice"` and no `domain`, the single
issued request is the global CDR listing without any `user` datum. -/
theorem cdr_user_ignored_witness :
    truthy (.str ( "alice")) = true ∧
    (NetSapiensClient.getCDRRecords (okT .null)
        { user := .str ( "alice") }).2 =
      [{ method := .get, path := "/cdrs"
         params := [(( "start_time"), .undefined), (( "end_time"), .undefined),
                    (( "limit"), jsOr .undefined (.num 100))] }] :=
  ⟨rfl, (cdr_user_ignored (okT .null) { user := .str ( "alice") } rfl rfl).1⟩

/-- C6: the catalog (a fixed literal, hence identical on every call)
contains exactly one descriptor for each of the 23 operation names, in a
duplicate-free order, and each descriptor's required-field list is
exactly the required-inputs column of the operation table —
e.g. `search_users` requires exactly `query`, `login_agent` requires
exactly `domain`, `queueId`, `agentId`, and `get_cdr_records`,
`get_domains` and `test_connection` require nothing. -/
theorem catalog_descriptors :
    catalogNames = [( "search_users"), ( "get_user"), ( "get_cdr_records"),
      ( "get_domains"), ( "get_domain"), ( "get_user_devices"),
      ( "get_phone_numbers"), ( "get_phone_number"), ( "get_call_queues"),
      ( "get_call_queue"), ( "get_call_queue_agents"), ( "get_agents"),
      ( "login_agent"), ( "logout_agent"), ( "get_auto_attendants"),
      ( "get_user_answer_rules"), ( "get_user_answer_rule"),
      ( "get_user_greetings"), ( "get_user_voicemails"),
      ( "get_music_on_hold"), ( "get_billing"), ( "get_agent_statistics"),
      ( "test_connection")] ∧
    catalogNames.Nodup ∧
    requiredParams ( "search_users") = [( "query")] ∧
    requiredParams ( "get_user") = [( "userId"), ( "domain")] ∧
    requiredParams ( "get_cdr_records") = [] ∧
    requiredParams ( "get_domains") = [] ∧
    requiredParams ( "get_domain") = [( "domain")] ∧
    requiredParams ( "get_user_devices") = [( "userId"), ( "domain")] ∧
    requiredParams ( "get_phone_numbers") = [( "domain")] ∧
    requiredParams ( "get_phone_number") = [( "domain"), ( "phoneNumber")] ∧
    requiredParams ( "get_call_queues") = [( "domain")] ∧
    requiredParams ( "get_call_queue") = [( "domain"), ( "queueId")] ∧
    requiredParams ( "get_call_queue_agents") = [( "domain"), ( "queueId")] ∧
    requiredParams ( "get_agents") = [( "domain")] ∧
    requiredParams ( "login_agent") = [( "domain"), ( "queueId"), ( "agentId")] ∧
    requiredParams ( "logout_agent") = [( "domain"), ( "queueId"), ( "agentId")] ∧
    requiredParams ( "get_auto_attendants") = [( "domain")] ∧
    requiredParams ( "get_user_answer_rules") = [( "userId"), ( "domain")] ∧
    requiredParams ( "get_user_answer_rule") =
      [( "userId"), ( "domain"), ( "timeframe")] ∧
    requiredParams ( "get_user_greetings") = [( "userId"), ( "domain")] ∧
    requiredParams ( "get_user_voicemails") = [( "userId"), ( "domain")] ∧
    requiredParams ( "get_music_on_hold") = [( "domain")] ∧
    requiredParams ( "get_billing") = [( "domain")] ∧
    requiredParams ( "get_agent_statistics") = [( "domain")] ∧
    requiredParams ( "test_connection") = [] :=
  ⟨rfl, by decide, rfl, rfl, rfl, rfl, rfl, rfl, rfl, rfl, rfl, rfl, rfl, rfl,
   rfl, rfl, rfl, rfl, rfl, rfl, rfl, rfl, rfl, rfl, rfl⟩

/-- C2: for every tool and every argument map in which some
catalog-required parameter is absent or falsy, `callTool` returns the
protocol-level invalid-params error (code `ErrorCode.invalidParams`)
whose message names the missing field (case-insensitively), and issues
zero HTTP requests; and the optional `limit` parameters absent from the
arguments take their schema-declared defaults — 20 for `search_users`
and 100 for `get_cdr_records` — in the issued request. -/
theorem dispatch_validation :
    (∀ (c : Transport) (n : String) (args : Args) (p : String),
      n ∈ catalogNames → p ∈ requiredParams n →
      truthy (getArg args p) = false →
      (OITVOIPMCPServer.callTool c n args).2 = [] ∧
      ∃ msg, (OITVOIPMCPServer.callTool c n args).1 =
        Except.error { code := ErrorCode.invalidParams, message := msg } ∧
        mentionsCI p msg = true) ∧
    (∀ (c : Transport) (args : Args),
      isUndefined (getArg args ( "limit")) = true →
      ∀ req ∈ (OITVOIPMCPServer.callTool c ( "search_users") args).2,
        (( "limit"), JsValue.num 20) ∈ req.params) ∧
    (∀ (c : Transport) (args : Args),
      isUndefined (getArg args ( "limit")) = true →
      ∀ req ∈ (OITVOIPMCPServer.callTool c ( "get_cdr_records") args).2,
        (( "limit"), JsValue.num 100) ∈ req.params) := by
  refine ⟨?_, ?_, ?_⟩
  · intro c n args p hn hp hf
    have hn2 : n ∈ [( "search_users"),
      ( "get_user"),
      ( "get_cdr_records"),
      ( "get_domains"),
      ( "get_domain"),
      ( "get_user_devices"),
      ( "get_phone_numbers"),
      ( "get_phone_number"),
      ( "get_call_queues"),
      ( "get_call_queue"),
      ( "get_call_queue_agents"),
      ( "get_agents"),
      ( "login_agent"),
      ( "logout_agent"),
      ( "get_auto_attendants"),
      ( "get_user_answer_rules"),
      ( "get_user_answer_rule"),
      ( "get_user_greetings"),
      ( "get_user_voicemails"),
      ( "get_music_on_hold"),
      ( "get_billing"),
      ( "get_agent_statistics"),
      ( "test_connection")] := hn
    simp only [List.mem_cons, List.mem_singleton, List.mem_nil_iff,
      or_false] at hn2
    rcases hn2 with rfl | rfl | rfl | rfl | rfl | rfl | rfl | rfl | rfl | rfl | rfl | rfl | rfl | rfl | rfl | rfl | rfl | rfl | rfl | rfl | rfl | rfl | rfl
    · have e : OITVOIPMCPServer.callTool c ( "search_users") args =
          OITVOIPMCPServer.handleSearchUsers c args := rfl
      rw [e]
      have hp2 : p ∈ [( "query")] := hp
      simp only [List.mem_cons, List.mem_singleton, List.mem_nil_iff,
        or_false] at hp2
      have hcall : OITVOIPMCPServer.handleSearchUsers c args =
          (.error { code := ErrorCode.invalidParams
                    message := "Query parameter is required" }, []) := by
        rcases hp2 with rfl; simp [OITVOIPMCPServer.handleSearchUsers, hf]
      rw [hcall]
      refine ⟨rfl, _, rfl, ?_⟩
      rcases hp2 with rfl; decide
    · have e : OITVOIPMCPServer.callTool c ( "get_user") args =
          OITVOIPMCPServer.handleGetUser c args := rfl
      rw [e]
      have hp2 : p ∈ [( "userId"), ( "domain")] := hp
      simp only [List.mem_cons, List.mem_singleton, List.mem_nil_iff,
        or_false] at hp2
      have hcall : OITVOIPMCPServer.handleGetUser c args =
          (.error { code := ErrorCode.invalidParams
                    message := "userId and domain parameters are required" }, []) := by
        rcases hp2 with rfl | rfl <;> simp [OITVOIPMCPServer.handleGetUser, hf]
      rw [hcall]
      refine ⟨rfl, _, rfl, ?_⟩
      rcases hp2 with rfl | rfl <;> decide
    · exact absurd (show p ∈ ([] : List String) from hp) (List.not_mem_nil p)
    · exact absurd (show p ∈ ([] : List String) from hp) (List.not_mem_nil p)
    · have e : OITVOIPMCPServer.callTool c ( "get_domain") args =
          OITVOIPMCPServer.handleGetDomain c args := rfl
      rw [e]
      have hp2 : p ∈ [( "domain")] := hp
      simp only [List.mem_cons, List.mem_singleton, List.mem_nil_iff,
        or_false] at hp2
      have hcall : OITVOIPMCPServer.handleGetDomain c args =
          (.error { code := ErrorCode.invalidParams
                    message := "domain parameter is required" }, []) := by
        rcases hp2 with rfl; simp [OITVOIPMCPServer.handleGetDomain, hf]
      rw [hcall]
      refine ⟨rfl, _, rfl, ?_⟩
      rcases hp2 with rfl; decide
    · have e : OITVOIPMCPServer.callTool c ( "get_user_devices") args =
          OITVOIPMCPServer.handleGetUserDevices c args := rfl
      rw [e]
      have hp2 : p ∈ [( "userId"), ( "domain")] := hp
      simp only [List.mem_cons, List.mem_singleton, List.mem_nil_iff,
        or_false] at hp2
      have hcall : OITVOIPMCPServer.handleGetUserDevices c args =
          (.error { code := ErrorCode.invalidParams
                    message := "userId and domain parameters are required" }, []) := by
        rcases hp2 with rfl | rfl <;> simp [OITVOIPMCPServer.handleGetUserDevices, hf]
      rw [hcall]
      refine ⟨rfl, _, rfl, ?_⟩
      rcases hp2 with rfl | rfl <;> decide
    · have e : OITVOIPMCPServer.callTool c ( "get_phone_numbers") args =
          OITVOIPMCPServer.handleGetPhoneNumbers c args := rfl
      rw [e]
      have hp2 : p ∈ [( "domain")] := hp
      simp only [List.mem_cons, List.mem_singleton, List.mem_nil_iff,
        or_false] at hp2
      have hcall : OITVOIPMCPServer.handleGetPhoneNumbers c args =
          (.error { code := ErrorCode.invalidParams
                    message := "domain parameter is required" }, []) := by
        rcases hp2 with rfl; simp [OITVOIPMCPServer.handleGetPhoneNumbers, hf]
      rw [hcall]
      refine ⟨rfl, _, rfl, ?_⟩
      rcases hp2 with rfl; decide
    · have e : OITVOIPMCPServer.callTool c ( "get_phone_number") args =
          OITVOIPMCPServer.handleGetPhoneNumber c args := rfl
      rw [e]
      have hp2 : p ∈ [( "domain"), ( "phoneNumber")] := hp
      simp only [List.mem_cons, List.mem_singleton, List.mem_nil_iff,
        or_false] at hp2
      have hcall : OITVOIPMCPServer.handleGetPhoneNumber c args =
          (.error { code := ErrorCode.invalidParams
                    message := "domain and phoneNumber parameters are required" }, []) := by
        rcases hp2 with rfl | rfl <;> simp [OITVOIPMCPServer.handleGetPhoneNumber, hf]
      rw [hcall]
      refine ⟨rfl, _, rfl, ?_⟩
      rcases hp2 with rfl | rfl <;> decide
    · have e : OITVOIPMCPServer.callTool c ( "get_call_queues") args =
          OITVOIPMCPServer.handleGetCallQueues c args := rfl
      rw [e]
      have hp2 : p ∈ [( "domain")] := hp
      simp only [List.mem_cons, List.mem_singleton, List.mem_nil_iff,
        or_false] at hp2
      have hcall : OITVOIPMCPServer.handleGetCallQueues c args =
          (.error { code := ErrorCode.invalidParams
                    message := "domain parameter is required" }, []) := by
        rcases hp2 with rfl; simp [OITVOIPMCPServer.handleGetCallQueues, hf]
      rw [hcall]
      refine ⟨rfl, _, rfl, ?_⟩
      rcases hp2 with rfl; decide
    · have e : OITVOIPMCPServer.callTool c ( "get_call_queue") args =
          OITVOIPMCPServer.handleGetCallQueue c args := rfl
      rw [e]
      have hp2 : p ∈ [( "domain"), ( "queueId")] := hp
      simp only [List.mem_cons, List.mem_singleton, List.mem_nil_iff,
        or_false] at hp2
      have hcall : OITVOIPMCPServer.handleGetCallQueue c args =
          (.error { code := ErrorCode.invalidParams
                    message := "domain and queueId parameters are required" }, []) := by
        rcases hp2 with rfl | rfl <;> simp [OITVOIPMCPServer.handleGetCallQueue, hf]
      rw [hcall]
      refine ⟨rfl, _, rfl, ?_⟩
      rcases hp2 with rfl | rfl <;> decide
    · have e : OITVOIPMCPServer.callTool c ( "get_call_queue_agents") args =
          OITVOIPMCPServer.handleGetCallQueueAgents c args := rfl
      rw [e]
      have hp2 : p ∈ [( "domain"), ( "queueId")] := hp
      simp only [List.mem_cons, List.mem_singleton, List.mem_nil_iff,
        or_false] at hp2
      have hcall : OITVOIPMCPServer.handleGetCallQueueAgents c args =
          (.error { code := ErrorCode.invalidParams
                    message := "domain and queueId parameters are required" }, []) := by
        rcases hp2 with rfl | rfl <;> simp [OITVOIPMCPServer.handleGetCallQueueAgents, hf]
      rw [hcall]
      refine ⟨rfl, _, rfl, ?_⟩
      rcases hp2 with rfl | rfl <;> decide
    · have e : OITVOIPMCPServer.callTool c ( "get_agents") args =
          OITVOIPMCPServer.handleGetAgents c args := rfl
      rw [e]
      have hp2 : p ∈ [( "domain")] := hp
      simp only [List.mem_cons, List.mem_singleton, List.mem_nil_iff,
        or_false] at hp2
      have hcall : OITVOIPMCPServer.handleGetAgents c args =
          (.error { code := ErrorCode.invalidParams
                    message := "domain parameter is required" }, []) := by
        rcases hp2 with rfl; simp [OITVOIPMCPServer.handleGetAgents, hf]
      rw [hcall]
      refine ⟨rfl, _, rfl, ?_⟩
      rcases hp2 with rfl; decide
    · have e : OITVOIPMCPServer.callTool c ( "login_agent") args =
          OITVOIPMCPServer.handleLoginAgent c args := rfl
      rw [e]
      have hp2 : p ∈ [( "domain"), ( "queueId"), ( "agentId")] := hp
      simp only [List.mem_cons, List.mem_singleton, List.mem_nil_iff,
        or_false] at hp2
      have hcall : OITVOIPMCPServer.handleLoginAgent c args =
          (.error { code := ErrorCode.invalidParams
                    message := "domain, queueId, and agentId parameters are required" }, []) := by
        rcases hp2 with rfl | rfl | rfl <;> simp [OITVOIPMCPServer.handleLoginAgent, hf]
      rw [hcall]
      refine ⟨rfl, _, rfl, ?_⟩
      rcases hp2 with rfl | rfl | rfl <;> decide
    · have e : OITVOIPMCPServer.callTool c ( "logout_agent") args =
          OITVOIPMCPServer.handleLogoutAgent c args := rfl
      rw [e]
      have hp2 : p ∈ [( "domain"), ( "queueId"), ( "agentId")] := hp
      simp only [List.mem_cons, List.mem_singleton, List.mem_nil_iff,
        or_false] at hp2
      have hcall : OITVOIPMCPServer.handleLogoutAgent c args =
          (.error { code := ErrorCode.invalidParams
                    message := "domain, queueId, and agentId parameters are required" }, []) := by
        rcases hp2 with rfl | rfl | rfl <;> simp [OITVOIPMCPServer.handleLogoutAgent, hf]
      rw [hcall]
      refine ⟨rfl, _, rfl, ?_⟩
      rcases hp2 with rfl | rfl | rfl <;> decide
    · have e : OITVOIPMCPServer.callTool c ( "get_auto_attendants") args =
          OITVOIPMCPServer.handleGetAutoAttendants c args := rfl
      rw [e]
      have hp2 : p ∈ [( "domain")] := hp
      simp only [List.mem_cons, List.mem_singleton, List.mem_nil_iff,
        or_false] at hp2
      have hcall : OITVOIPMCPServer.handleGetAutoAttendants c args =
          (.error { code := ErrorCode.invalidParams
                    message := "domain parameter is required" }, []) := by
        rcases hp2 with rfl; simp [OITVOIPMCPServer.handleGetAutoAttendants, hf]
      rw [hcall]
      refine ⟨rfl, _, rfl, ?_⟩
      rcases hp2 with rfl; decide
    · have e : OITVOIPMCPServer.callTool c ( "get_user_answer_rules") args =
          OITVOIPMCPServer.handleGetUserAnswerRules c args := rfl
      rw [e]
      have hp2 : p ∈ [( "userId"), ( "domain")] := hp
      simp only [List.mem_cons, List.mem_singleton, List.mem_nil_iff,
        or_false] at hp2
      have hcall : OITVOIPMCPServer.handleGetUserAnswerRules c args =
          (.error { code := ErrorCode.invalidParams
                    message := "userId and domain parameters are required" }, []) := by
        rcases hp2 with rfl | rfl <;> simp [OITVOIPMCPServer.handleGetUserAnswerRules, hf]
      rw [hcall]
      refine ⟨rfl, _, rfl, ?_⟩
      rcases hp2 with rfl | rfl <;> decide
    · have e : OITVOIPMCPServer.callTool c ( "get_user_answer_rule") args =
          OITVOIPMCPServer.handleGetUserAnswerRule c args := rfl
      rw [e]
      have hp2 : p ∈ [( "userId"), ( "domain"), ( "timeframe")] := hp
      simp only [List.mem_cons, List.mem_singleton, List.mem_nil_iff,
        or_false] at hp2
      have hcall : OITVOIPMCPServer.handleGetUserAnswerRule c args =
          (.error { code := ErrorCode.invalidParams
                    message := "userId, domain, and timeframe parameters are required" }, []) := by
        rcases hp2 with rfl | rfl | rfl <;> simp [OITVOIPMCPServer.handleGetUserAnswerRule, hf]
      rw [hcall]
      refine ⟨rfl, _, rfl, ?_⟩
      rcases hp2 with rfl | rfl | rfl <;> decide
    · have e : OITVOIPMCPServer.callTool c ( "get_user_greetings") args =
          OITVOIPMCPServer.handleGetUserGreetings c args := rfl
      rw [e]
      have hp2 : p ∈ [( "userId"), ( "domain")] := hp
      simp only [List.mem_cons, List.mem_singleton, List.mem_nil_iff,
        or_false] at hp2
      have hcall : OITVOIPMCPServer.handleGetUserGreetings c args =
          (.error { code := ErrorCode.invalidParams
                    message := "userId and domain parameters are required" }, []) := by
        rcases hp2 with rfl | rfl <;> simp [OITVOIPMCPServer.handleGetUserGreetings, hf]
      rw [hcall]
      refine ⟨rfl, _, rfl, ?_⟩
      rcases hp2 with rfl | rfl <;> decide
    · have e : OITVOIPMCPServer.callTool c ( "get_user_voicemails") args =
          OITVOIPMCPServer.handleGetUserVoicemails c args := rfl
      rw [e]
      have hp2 : p ∈ [( "userId"), ( "domain")] := hp
      simp only [List.mem_cons, List.mem_singleton, List.mem_nil_iff,
        or_false] at hp2
      have hcall : OITVOIPMCPServer.handleGetUserVoicemails c args =
          (.error { code := ErrorCode.invalidParams
                    message := "userId and domain parameters are required" }, []) := by
        rcases hp2 with rfl | rfl <;> simp [OITVOIPMCPServer.handleGetUserVoicemails, hf]
      rw [hcall]
      refine ⟨rfl, _, rfl, ?_⟩
      rcases hp2 with rfl | rfl <;> decide
    · have e : OITVOIPMCPServer.callTool c ( "get_music_on_hold") args =
          OITVOIPMCPServer.handleGetMusicOnHold c args := rfl
      rw [e]
      have hp2 : p ∈ [( "domain")] := hp
      simp only [List.mem_cons, List.mem_singleton, List.mem_nil_iff,
        or_false] at hp2
      have hcall : OITVOIPMCPServer.handleGetMusicOnHold c args =
          (.error { code := ErrorCode.invalidParams
                    message := "domain parameter is required" }, []) := by
        rcases hp2 with rfl; simp [OITVOIPMCPServer.handleGetMusicOnHold, hf]
      rw [hcall]
      refine ⟨rfl, _, rfl, ?_⟩
      rcases hp2 with rfl; decide
    · have e : OITVOIPMCPServer.callTool c ( "get_billing") args =
          OITVOIPMCPServer.handleGetBilling c args := rfl
      rw [e]
      have hp2 : p ∈ [( "domain")] := hp
      simp only [List.mem_cons, List.mem_singleton, List.mem_nil_iff,
        or_false] at hp2
      have hcall : OITVOIPMCPServer.handleGetBilling c args =
          (.error { code := ErrorCode.invalidParams
                    message := "domain parameter is required" }, []) := by
        rcases hp2 with rfl; simp [OITVOIPMCPServer.handleGetBilling, hf]
      rw [hcall]
      refine ⟨rfl, _, rfl, ?_⟩
      rcases hp2 with rfl; decide
    · have e : OITVOIPMCPServer.callTool c ( "get_agent_statistics") args =
          OITVOIPMCPServer.handleGetAgentStatistics c args := rfl
      rw [e]
      have hp2 : p ∈ [( "domain")] := hp
      simp only [List.mem_cons, List.mem_singleton, List.mem_nil_iff,
        or_false] at hp2
      have hcall : OITVOIPMCPServer.handleGetAgentStatistics c args =
          (.error { code := ErrorCode.invalidParams
                    message := "domain parameter is required" }, []) := by
        rcases hp2 with rfl; simp [OITVOIPMCPServer.handleGetAgentStatistics, hf]
      rw [hcall]
      refine ⟨rfl, _, rfl, ?_⟩
      rcases hp2 with rfl; decide
    · exact absurd (show p ∈ ([] : List String) from hp) (List.not_mem_nil p)
  · intro c args h req hreq
    have e : OITVOIPMCPServer.callTool c ( "search_users") args =
        OITVOIPMCPServer.handleSearchUsers c args := rfl
    rw [e] at hreq
    by_cases hq : truthy (getArg args ( "query")) = true
    · simp only [OITVOIPMCPServer.handleSearchUsers, hq,
        NetSapiensClient.searchUsers, h] at hreq
      simp at hreq
      subst hreq
      simp [isUndefined]
    · simp only [OITVOIPMCPServer.handleSearchUsers,
        eq_false_of_ne_true hq] at hreq
      simp at hreq
  · intro c args h req hreq
    have he : req = _ := List.eq_of_mem_singleton hreq
    subst he
    simp [OITVOIPMCPServer.handleGetCDRRecords, NetSapiensClient.getCDRRecords,
      h, jsOr, truthy]

/-- Witness for C2: `login_agent` invoked without `agentId` yields the
invalid-params error naming `agentId` and no request; `search_users` and
`get_cdr_records` invoked without `limit` carry 20 and 100 in the issued
request. -/
theorem dispatch_validation_witness :
    ((OITVOIPMCPServer.callTool (okT .null) ( "login_agent")
        [(( "domain"), .str ( "example.com")),
         (( "queueId"), .str ( "sales"))]).2 = [] ∧
     ∃ msg, (OITVOIPMCPServer.callTool (okT .null) ( "login_agent")
        [(( "domain"), .str ( "example.com")),
         (( "queueId"), .str ( "sales"))]).1 =
        Except.error { code := ErrorCode.invalidParams, message := msg } ∧
        mentionsCI ( "agentId") msg = true) ∧
    (( "limit"), JsValue.num 20) ∈ (HttpRequest.params
      { method := .get, path := "/domains/~/users/~"
        params := [(( "user"), JsValue.str ( "john")),
                    (( "limit"), JsValue.num 20)] }) ∧
    (( "limit"), JsValue.num 100) ∈ (HttpRequest.params
      { method := .get, path := "/cdrs"
        params := [(( "start_time"), JsValue.undefined),
                    (( "end_time"), JsValue.undefined),
                    (( "limit"), JsValue.num 100)] }) := by
  refine ⟨dispatch_validation.1 (okT .null) ( "login_agent")
      [(( "domain"), .str ( "example.com")), (( "queueId"), .str ( "sales"))]
      ( "agentId") (by decide) (by decide) rfl, ?_, ?_⟩
  · exact dispatch_validation.2.1 (okT .null)
      [(( "query"), .str ( "john"))] rfl
      { method := .get, path := "/domains/~/users/~"
        params := [(( "user"), JsValue.str ( "john")),
                    (( "limit"), JsValue.num 20)] }
      (List.Mem.head _)
  · exact dispatch_validation.2.2 (okT .null) [] rfl
      { method := .get, path := "/cdrs"
        params := [(( "start_time"), JsValue.undefined),
                    (( "end_time"), JsValue.undefined),
                    (( "limit"), JsValue.num 100)] }
      (List.Mem.head _)

/-- C3: `callTool` with a name matching none of the 23 catalog
operations returns the protocol-level method-not-found error, whose
code is distinct from the invalid-params code, without issuing any
request; and for every recognized, validated invocation a
transport-level failure never surfaces as a protocol error — the reply
is an ordinarily delivered single-block `ToolReply` whose serialized
body carries `success: false`. -/
theorem protocol_error_separation :
    (∀ (n : String), n ∉ catalogNames → ∀ (c : Transport) (args : Args),
      OITVOIPMCPServer.callTool c n args =
        (Except.error { code := ErrorCode.methodNotFound
                        message := "Unknown tool: " ++ n }, [])) ∧
    ErrorCode.methodNotFound ≠ ErrorCode.invalidParams ∧
    (∀ (n : String) (args : Args) (m : JsValue),
      n ∈ catalogNames → validArgs n args = true →
      ∃ bl reqs, OITVOIPMCPServer.callTool (failT m) n args =
        (Except.ok { content := [bl] }, reqs) ∧
        List.lookup ( "success") bl.fields = some (JsValue.bool false)) := by
  refine ⟨?_, by decide, ?_⟩
  · intro n hn c args
    have hn2 : ¬ (n ∈ [( "search_users"),
      ( "get_user"),
      ( "get_cdr_records"),
      ( "get_domains"),
      ( "get_domain"),
      ( "get_user_devices"),
      ( "get_phone_numbers"),
      ( "get_phone_number"),
      ( "get_call_queues"),
      ( "get_call_queue"),
      ( "get_call_queue_agents"),
      ( "get_agents"),
      ( "login_agent"),
      ( "logout_agent"),
      ( "get_auto_attendants"),
      ( "get_user_answer_rules"),
      ( "get_user_answer_rule"),
      ( "get_user_greetings"),
      ( "get_user_voicemails"),
      ( "get_music_on_hold"),
      ( "get_billing"),
      ( "get_agent_statistics"),
      ( "test_connection")]) := hn
    simp only [List.mem_cons, List.mem_singleton, List.mem_nil_iff, or_false,
      not_or] at hn2
    obtain ⟨h1, h2, h3, h4, h5, h6, h7, h8, h9, h10, h11, h12, h13, h14, h15, h16, h17, h18, h19, h20, h21, h22, h23⟩ := hn2
    simp [OITVOIPMCPServer.callTool, h1, h2, h3, h4, h5, h6, h7, h8, h9, h10, h11, h12, h13, h14, h15, h16, h17, h18, h19, h20, h21, h22, h23]
  · intro n args m hn hv
    have hn2 : n ∈ [( "search_users"),
      ( "get_user"),
      ( "get_cdr_records"),
      ( "get_domains"),
      ( "get_domain"),
      ( "get_user_devices"),
      ( "get_phone_numbers"),
      ( "get_phone_number"),
      ( "get_call_queues"),
      ( "get_call_queue"),
      ( "get_call_queue_agents"),
      ( "get_agents"),
      ( "login_agent"),
      ( "logout_agent"),
      ( "get_auto_attendants"),
      ( "get_user_answer_rules"),
      ( "get_user_answer_rule"),
      ( "get_user_greetings"),
      ( "get_user_voicemails"),
      ( "get_music_on_hold"),
      ( "get_billing"),
      ( "get_agent_statistics"),
      ( "test_connection")] := hn
    simp only [List.mem_cons, List.mem_singleton, List.mem_nil_iff,
      or_false] at hn2
    rcases hn2 with rfl | rfl | rfl | rfl | rfl | rfl | rfl | rfl | rfl | rfl | rfl | rfl | rfl | rfl | rfl | rfl | rfl | rfl | rfl | rfl | rfl | rfl | rfl
    · have e : OITVOIPMCPServer.callTool (failT m) ( "search_users") args =
          OITVOIPMCPServer.handleSearchUsers (failT m) args := rfl
      rw [e]
      have hv2 : List.all [( "query")]
          (fun p => truthy (getArg args p)) = true := hv
      simp only [List.all_cons, List.all_nil, Bool.and_eq_true,
        Bool.and_true] at hv2
      have hcond : (!truthy (getArg args ( "query"))) = false := by
        simp [hv2]
      simp only [OITVOIPMCPServer.handleSearchUsers, hcond]
      exact ⟨_, _, rfl, rfl⟩
    · have e : OITVOIPMCPServer.callTool (failT m) ( "get_user") args =
          OITVOIPMCPServer.handleGetUser (failT m) args := rfl
      rw [e]
      have hv2 : List.all [( "userId"), ( "domain")]
          (fun p => truthy (getArg args p)) = true := hv
      simp only [List.all_cons, List.all_nil, Bool.and_eq_true,
        Bool.and_true] at hv2
      have hcond : (!truthy (getArg args ( "userId")) ||
        !truthy (getArg args ( "domain"))) = false := by
        simp [hv2.1, hv2.2]
      simp only [OITVOIPMCPServer.handleGetUser, hcond]
      exact ⟨_, _, rfl, rfl⟩
    · exact ⟨_, _, rfl, rfl⟩
    · exact ⟨_, _, rfl, rfl⟩
    · have e : OITVOIPMCPServer.callTool (failT m) ( "get_domain") args =
          OITVOIPMCPServer.handleGetDomain (failT m) args := rfl
      rw [e]
      have hv2 : List.all [( "domain")]
          (fun p => truthy (getArg args p)) = true := hv
      simp only [List.all_cons, List.all_nil, Bool.and_eq_true,
        Bool.and_true] at hv2
      have hcond : (!truthy (getArg args ( "domain"))) = false := by
        simp [hv2]
      simp only [OITVOIPMCPServer.handleGetDomain, hcond]
      exact ⟨_, _, rfl, rfl⟩
    · have e : OITVOIPMCPServer.callTool (failT m) ( "get_user_devices") args =
          OITVOIPMCPServer.handleGetUserDevices (failT m) args := rfl
      rw [e]
      have hv2 : List.all [( "userId"), ( "domain")]
          (fun p => truthy (getArg args p)) = true := hv
      simp only [List.all_cons, List.all_nil, Bool.and_eq_true,
        Bool.and_true] at hv2
      have hcond : (!truthy (getArg args ( "userId")) ||
        !truthy (getArg args ( "domain"))) = false := by
        simp [hv2.1, hv2.2]
      simp only [OITVOIPMCPServer.handleGetUserDevices, hcond]
      exact ⟨_, _, rfl, rfl⟩
    · have e : OITVOIPMCPServer.callTool (failT m) ( "get_phone_numbers") args =
          OITVOIPMCPServer.handleGetPhoneNumbers (failT m) args := rfl
      rw [e]
      have hv2 : List.all [( "domain")]
          (fun p => truthy (getArg args p)) = true := hv
      simp only [List.all_cons, List.all_nil, Bool.and_eq_true,
        Bool.and_true] at hv2
      have hcond : (!truthy (getArg args ( "domain"))) = false := by
        simp [hv2]
      simp only [OITVOIPMCPServer.handleGetPhoneNumbers, hcond]
      exact ⟨_, _, rfl, rfl⟩
    · have e : OITVOIPMCPServer.callTool (failT m) ( "get_phone_number") args =
          OITVOIPMCPServer.handleGetPhoneNumber (failT m) args := rfl
      rw [e]
      have hv2 : List.all [( "domain"), ( "phoneNumber")]
          (fun p => truthy (getArg args p)) = true := hv
      simp only [List.all_cons, List.all_nil, Bool.and_eq_true,
        Bool.and_true] at hv2
      have hcond : (!truthy (getArg args ( "domain")) ||
        !truthy (getArg args ( "phoneNumber"))) = false := by
        simp [hv2.1, hv2.2]
      simp only [OITVOIPMCPServer.handleGetPhoneNumber, hcond]
      exact ⟨_, _, rfl, rfl⟩
    · have e : OITVOIPMCPServer.callTool (failT m) ( "get_call_queues") args =
          OITVOIPMCPServer.handleGetCallQueues (failT m) args := rfl
      rw [e]
      have hv2 : List.all [( "domain")]
          (fun p => truthy (getArg args p)) = true := hv
      simp only [List.all_cons, List.all_nil, Bool.and_eq_true,
        Bool.and_true] at hv2
      have hcond : (!truthy (getArg args ( "domain"))) = false := by
        simp [hv2]
      simp only [OITVOIPMCPServer.handleGetCallQueues, hcond]
      exact ⟨_, _, rfl, rfl⟩
    · have e : OITVOIPMCPServer.callTool (failT m) ( "get_call_queue") args =
          OITVOIPMCPServer.handleGetCallQueue (failT m) args := rfl
      rw [e]
      have hv2 : List.all [( "domain"), ( "queueId")]
          (fun p => truthy (getArg args p)) = true := hv
      simp only [List.all_cons, List.all_nil, Bool.and_eq_true,
        Bool.and_true] at hv2
      have hcond : (!truthy (getArg args ( "domain")) ||
        !truthy (getArg args ( "queueId"))) = false := by
        simp [hv2.1, hv2.2]
      simp only [OITVOIPMCPServer.handleGetCallQueue, hcond]
      exact ⟨_, _, rfl, rfl⟩
    · have e : OITVOIPMCPServer.callTool (failT m) ( "get_call_queue_agents") args =
          OITVOIPMCPServer.handleGetCallQueueAgents (failT m) args := rfl
      rw [e]
      have hv2 : List.all [( "domain"), ( "queueId")]
          (fun p => truthy (getArg args p)) = true := hv
      simp only [List.all_cons, List.all_nil, Bool.and_eq_true,
        Bool.and_true] at hv2
      have hcond : (!truthy (getArg args ( "domain")) ||
        !truthy (getArg args ( "queueId"))) = false := by
        simp [hv2.1, hv2.2]
      simp only [OITVOIPMCPServer.handleGetCallQueueAgents, hcond]
      exact ⟨_, _, rfl, rfl⟩
    · have e : OITVOIPMCPServer.callTool (failT m) ( "get_agents") args =
          OITVOIPMCPServer.handleGetAgents (failT m) args := rfl
      rw [e]
      have hv2 : List.all [( "domain")]
          (fun p => truthy (getArg args p)) = true := hv
      simp only [List.all_cons, List.all_nil, Bool.and_eq_true,
        Bool.and_true] at hv2
      have hcond : (!truthy (getArg args ( "domain"))) = false := by
        simp [hv2]
      simp only [OITVOIPMCPServer.handleGetAgents, hcond]
      exact ⟨_, _, rfl, rfl⟩
    · have e : OITVOIPMCPServer.callTool (failT m) ( "login_agent") args =
          OITVOIPMCPServer.handleLoginAgent (failT m) args := rfl
      rw [e]
      have hv2 : List.all [( "domain"), ( "queueId"), ( "agentId")]
          (fun p => truthy (getArg args p)) = true := hv
      simp only [List.all_cons, List.all_nil, Bool.and_eq_true,
        Bool.and_true] at hv2
      have hcond : (!truthy (getArg args ( "domain")) ||
        !truthy (getArg args ( "queueId")) ||
        !truthy (getArg args ( "agentId"))) = false := by
        simp [hv2.1, hv2.2.1, hv2.2.2]
      simp only [OITVOIPMCPServer.handleLoginAgent, hcond]
      exact ⟨_, _, rfl, rfl⟩
    · have e : OITVOIPMCPServer.callTool (failT m) ( "logout_agent") args =
          OITVOIPMCPServer.handleLogoutAgent (failT m) args := rfl
      rw [e]
      have hv2 : List.all [( "domain"), ( "queueId"), ( "agentId")]
          (fun p => truthy (getArg args p)) = true := hv
      simp only [List.all_cons, List.all_nil, Bool.and_eq_true,
        Bool.and_true] at hv2
      have hcond : (!truthy (getArg args ( "domain")) ||
        !truthy (getArg args ( "queueId")) ||
        !truthy (getArg args ( "agentId"))) = false := by
        simp [hv2.1, hv2.2.1, hv2.2.2]
      simp only [OITVOIPMCPServer.handleLogoutAgent, hcond]
      exact ⟨_, _, rfl, rfl⟩
    · have e : OITVOIPMCPServer.callTool (failT m) ( "get_auto_attendants") args =
          OITVOIPMCPServer.handleGetAutoAttendants (failT m) args := rfl
      rw [e]
      have hv2 : List.all [( "domain")]
          (fun p => truthy (getArg args p)) = true := hv
      simp only [List.all_cons, List.all_nil, Bool.and_eq_true,
        Bool.and_true] at hv2
      have hcond : (!truthy (getArg args ( "domain"))) = false := by
        simp [hv2]
      simp only [OITVOIPMCPServer.handleGetAutoAttendants, hcond]
      exact ⟨_, _, rfl, rfl⟩
    · have e : OITVOIPMCPServer.callTool (failT m) ( "get_user_answer_rules") args =
          OITVOIPMCPServer.handleGetUserAnswerRules (failT m) args := rfl
      rw [e]
      have hv2 : List.all [( "userId"), ( "domain")]
          (fun p => truthy (getArg args p)) = true := hv
      simp only [List.all_cons, List.all_nil, Bool.and_eq_true,
        Bool.and_true] at hv2
      have hcond : (!truthy (getArg args ( "userId")) ||
        !truthy (getArg args ( "domain"))) = false := by
        simp [hv2.1, hv2.2]
      simp only [OITVOIPMCPServer.handleGetUserAnswerRules, hcond]
      exact ⟨_, _, rfl, rfl⟩
    · have e : OITVOIPMCPServer.callTool (failT m) ( "get_user_answer_rule") args =
          OITVOIPMCPServer.handleGetUserAnswerRule (failT m) args := rfl
      rw [e]
      have hv2 : List.all [( "userId"), ( "domain"), ( "timeframe")]
          (fun p => truthy (getArg args p)) = true := hv
      simp only [List.all_cons, List.all_nil, Bool.and_eq_true,
        Bool.and_true] at hv2
      have hcond : (!truthy (getArg args ( "userId")) ||
        !truthy (getArg args ( "domain")) ||
        !truthy (getArg args ( "timeframe"))) = false := by
        simp [hv2.1, hv2.2.1, hv2.2.2]
      simp only [OITVOIPMCPServer.handleGetUserAnswerRule, hcond]
      exact ⟨_, _, rfl, rfl⟩
    · have e : OITVOIPMCPServer.callTool (failT m) ( "get_user_greetings") args =
          OITVOIPMCPServer.handleGetUserGreetings (failT m) args := rfl
      rw [e]
      have hv2 : List.all [( "userId"), ( "domain")]
          (fun p => truthy (getArg args p)) = true := hv
      simp only [List.all_cons, List.all_nil, Bool.and_eq_true,
        Bool.and_true] at hv2
      have hcond : (!truthy (getArg args ( "userId")) ||
        !truthy (getArg args ( "domain"))) = false := by
        simp [hv2.1, hv2.2]
      simp only [OITVOIPMCPServer.handleGetUserGreetings, hcond]
      exact ⟨_, _, rfl, rfl⟩
    · have e : OITVOIPMCPServer.callTool (failT m) ( "get_user_voicemails") args =
          OITVOIPMCPServer.handleGetUserVoicemails (failT m) args := rfl
      rw [e]
      have hv2 : List.all [( "userId"), ( "domain")]
          (fun p => truthy (getArg args p)) = true := hv
      simp only [List.all_cons, List.all_nil, Bool.and_eq_true,
        Bool.and_true] at hv2
      have hcond : (!truthy (getArg args ( "userId")) ||
        !truthy (getArg args ( "domain"))) = false := by
        simp [hv2.1, hv2.2]
      simp only [OITVOIPMCPServer.handleGetUserVoicemails, hcond]
      exact ⟨_, _, rfl, rfl⟩
    · have e : OITVOIPMCPServer.callTool (failT m) ( "get_music_on_hold") args =
          OITVOIPMCPServer.handleGetMusicOnHold (failT m) args := rfl
      rw [e]
      have hv2 : List.all [( "domain")]
          (fun p => truthy (getArg args p)) = true := hv
      simp only [List.all_cons, List.all_nil, Bool.and_eq_true,
        Bool.and_true] at hv2
      have hcond : (!truthy (getArg args ( "domain"))) = false := by
        simp [hv2]
      simp only [OITVOIPMCPServer.handleGetMusicOnHold, hcond]
      exact ⟨_, _, rfl, rfl⟩
    · have e : OITVOIPMCPServer.callTool (failT m) ( "get_billing") args =
          OITVOIPMCPServer.handleGetBilling (failT m) args := rfl
      rw [e]
      have hv2 : List.all [( "domain")]
          (fun p => truthy (getArg args p)) = true := hv
      simp only [List.all_cons, List.all_nil, Bool.and_eq_true,
        Bool.and_true] at hv2
      have hcond : (!truthy (getArg args ( "domain"))) = false := by
        simp [hv2]
      simp only [OITVOIPMCPServer.handleGetBilling, hcond]
      exact ⟨_, _, rfl, rfl⟩
    · have e : OITVOIPMCPServer.callTool (failT m) ( "get_agent_statistics") args =
          OITVOIPMCPServer.handleGetAgentStatistics (failT m) args := rfl
      rw [e]
      have hv2 : List.all [( "domain")]
          (fun p => truthy (getArg args p)) = true := hv
      simp only [List.all_cons, List.all_nil, Bool.and_eq_true,
        Bool.and_true] at hv2
      have hcond : (!truthy (getArg args ( "domain"))) = false := by
        simp [hv2]
      simp only [OITVOIPMCPServer.handleGetAgentStatistics, hcond]
      exact ⟨_, _, rfl, rfl⟩
    · exact ⟨_, _, rfl, rfl⟩

/-- Witness for C3: the unknown name `frobnicate` produces the
method-not-found error with no request, and a `get_domains` call on a
failing transport is delivered as an ordinary reply whose body says
`success: false`. -/
theorem protocol_error_separation_witness :
    OITVOIPMCPServer.callTool (okT .null) ( "frobnicate") [] =
      (Except.error { code := ErrorCode.methodNotFound
                      message := "Unknown tool: frobnicate" }, []) ∧
    (∃ bl reqs, OITVOIPMCPServer.callTool (failT .undefined) ( "get_domains") [] =
      (Except.ok { content := [bl] }, reqs) ∧
      List.lookup ( "success") bl.fields = some (JsValue.bool false)) := by
  constructor
  · have h := protocol_error_separation.1 ( "frobnicate") (by decide)
      (okT .null) []
    simpa using h
  · exact protocol_error_separation.2.2 ( "get_domains") [] .undefined
      (by decide) rfl

/-- C4 counterexample: invoking `test_connection` (2xx, empty domain
list) yields a reply whose serialized object has only the keys
`success`, `message` and `error` — there is no `data` key — while the
underlying `OperationResult` has `data = true`, so the claim that every
tool's reply body carries the four keys with `data` copied verbatim is
false at this input. -/
theorem reply_shape_counterexample :
    OITVOIPMCPServer.callTool (okT (.arr [])) ( "test_connection") [] =
      (Except.ok (textReply
        [(( "success"), JsValue.bool true),
         (( "message"), JsValue.str ( "Connection successful")),
         (( "error"), JsValue.undefined)]),
       [{ method := .get, path := "/domains"
          params := [(( "limit"), JsValue.num 1)] }]) ∧
    (NetSapiensClient.testConnection (okT (.arr []))).1.data =
      JsValue.bool true ∧
    List.lookup ( "data")
      [(( "success"), JsValue.bool true),
       (( "message"), JsValue.str ( "Connection successful")),
       (( "error"), JsValue.undefined)] = none :=
  ⟨rfl, rfl, rfl⟩

/-- C4 (amended): for every tool except `test_connection` and every
transport outcome, the reply of a validated `callTool` invocation is a
single text block whose stringified object is
`mkBody` of exactly the corresponding gateway method's
`OperationResult` — the keys are `success`, `message`, `data`, `error`
in that order with `success` and `data`/`error` copied verbatim — and
the issued requests are the gateway's; for `test_connection` the
object has only `success`, `message` and `error`, the `data` of its
`OperationResult` being dropped. -/
theorem reply_shape_amended :
    (∀ (c : Transport) (args : Args),
      truthy (getArg args ( "query")) = true →
      ∃ msg, OITVOIPMCPServer.callTool c ( "search_users") args =
        (Except.ok (textReply (mkBody
          (NetSapiensClient.searchUsers c (getArg args ( "query")) (getArg args ( "domain")) (if isUndefined (getArg args ( "limit")) then JsValue.num 20
            else getArg args ( "limit"))).1 msg)),
         (NetSapiensClient.searchUsers c (getArg args ( "query")) (getArg args ( "domain")) (if isUndefined (getArg args ( "limit")) then JsValue.num 20
            else getArg args ( "limit"))).2)) ∧    (∀ (c : Transport) (args : Args),
      truthy (getArg args ( "userId")) = true →
      truthy (getArg args ( "domain")) = true →
      ∃ msg, OITVOIPMCPServer.callTool c ( "get_user") args =
        (Except.ok (textReply (mkBody
          (NetSapiensClient.getUser c (getArg args ( "userId")) (getArg args ( "domain"))).1 msg)),
         (NetSapiensClient.getUser c (getArg args ( "userId")) (getArg args ( "domain"))).2)) ∧    (∀ (c : Transport) (args : Args),
      ∃ msg, OITVOIPMCPServer.callTool c ( "get_cdr_records") args =
        (Except.ok (textReply (mkBody
          (NetSapiensClient.getCDRRecords c { startDate := getArg args ( "startDate"), endDate := getArg args ( "endDate"), user := getArg args ( "user"), domain := getArg args ( "domain"), limit := if isUndefined (getArg args ( "limit")) then JsValue.num 100 else getArg args ( "limit") }).1 msg)),
         (NetSapiensClient.getCDRRecords c { startDate := getArg args ( "startDate"), endDate := getArg args ( "endDate"), user := getArg args ( "user"), domain := getArg args ( "domain"), limit := if isUndefined (getArg args ( "limit")) then JsValue.num 100 else getArg args ( "limit") }).2)) ∧    (∀ (c : Transport) (args : Args),
      ∃ msg, OITVOIPMCPServer.callTool c ( "get_domains") args =
        (Except.ok (textReply (mkBody
          (NetSapiensClient.getDomains c).1 msg)),
         (NetSapiensClient.getDomains c).2)) ∧    (∀ (c : Transport) (args : Args),
      truthy (getArg args ( "domain")) = true →
      ∃ msg, OITVOIPMCPServer.callTool c ( "get_domain") args =
        (Except.ok (textReply (mkBody
          (NetSapiensClient.getDomain c (getArg args ( "domain"))).1 msg)),
         (NetSapiensClient.getDomain c (getArg args ( "domain"))).2)) ∧    (∀ (c : Transport) (args : Args),
      truthy (getArg args ( "userId")) = true →
      truthy (getArg args ( "domain")) = true →
      ∃ msg, OITVOIPMCPServer.callTool c ( "get_user_devices") args =
        (Except.ok (textReply (mkBody
          (NetSapiensClient.getUserDevices c (getArg args ( "userId")) (getArg args ( "domain"))).1 msg)),
         (NetSapiensClient.getUserDevices c (getArg args ( "userId")) (getArg args ( "domain"))).2)) ∧    (∀ (c : Transport) (args : Args),
      truthy (getArg args ( "domain")) = true →
      ∃ msg, OITVOIPMCPServer.callTool c ( "get_phone_numbers") args =
        (Except.ok (textReply (mkBody
          (NetSapiensClient.getPhoneNumbers c (getArg args ( "domain")) (getArg args ( "limit"))).1 msg)),
         (NetSapiensClient.getPhoneNumbers c (getArg args ( "domain")) (getArg args ( "limit"))).2)) ∧    (∀ (c : Transport) (args : Args),
      truthy (getArg args ( "domain")) = true →
      truthy (getArg args ( "phoneNumber")) = true →
      ∃ msg, OITVOIPMCPServer.callTool c ( "get_phone_number") args =
        (Except.ok (textReply (mkBody
          (NetSapiensClient.getPhoneNumber c (getArg args ( "domain")) (getArg args ( "phoneNumber"))).1 msg)),
         (NetSapiensClient.getPhoneNumber c (getArg args ( "domain")) (getArg args ( "phoneNumber"))).2)) ∧    (∀ (c : Transport) (args : Args),
      truthy (getArg args ( "domain")) = true →
      ∃ msg, OITVOIPMCPServer.callTool c ( "get_call_queues") args =
        (Except.ok (textReply (mkBody
          (NetSapiensClient.getCallQueues c (getArg args ( "domain"))).1 msg)),
         (NetSapiensClient.getCallQueues c (getArg args ( "domain"))).2)) ∧    (∀ (c : Transport) (args : Args),
      truthy (getArg args ( "domain")) = true →
      truthy (getArg args ( "queueId")) = true →
      ∃ msg, OITVOIPMCPServer.callTool c ( "get_call_queue") args =
        (Except.ok (textReply (mkBody
          (NetSapiensClient.getCallQueue c (getArg args ( "domain")) (getArg args ( "queueId"))).1 msg)),
         (NetSapiensClient.getCallQueue c (getArg args ( "domain")) (getArg args ( "queueId"))).2)) ∧    (∀ (c : Transport) (args : Args),
      truthy (getArg args ( "domain")) = true →
      truthy (getArg args ( "queueId")) = true →
      ∃ msg, OITVOIPMCPServer.callTool c ( "get_call_queue_agents") args =
        (Except.ok (textReply (mkBody
          (NetSapiensClient.getCallQueueAgents c (getArg args ( "domain")) (getArg args ( "queueId"))).1 msg)),
         (NetSapiensClient.getCallQueueAgents c (getArg args ( "domain")) (getArg args ( "queueId"))).2)) ∧    (∀ (c : Transport) (args : Args),
      truthy (getArg args ( "domain")) = true →
      ∃ msg, OITVOIPMCPServer.callTool c ( "get_agents") args =
        (Except.ok (textReply (mkBody
          (NetSapiensClient.getAgents c (getArg args ( "domain"))).1 msg)),
         (NetSapiensClient.getAgents c (getArg args ( "domain"))).2)) ∧    (∀ (c : Transport) (args : Args),
      truthy (getArg args ( "domain")) = true →
      truthy (getArg args ( "queueId")) = true →
      truthy (getArg args ( "agentId")) = true →
      ∃ msg, OITVOIPMCPServer.callTool c ( "login_agent") args =
        (Except.ok (textReply (mkBody
          (NetSapiensClient.loginAgent c (getArg args ( "domain")) (getArg args ( "queueId")) (getArg args ( "agentId"))).1 msg)),
         (NetSapiensClient.loginAgent c (getArg args ( "domain")) (getArg args ( "queueId")) (getArg args ( "agentId"))).2)) ∧    (∀ (c : Transport) (args : Args),
      truthy (getArg args ( "domain")) = true →
      truthy (getArg args ( "queueId")) = true →
      truthy (getArg args ( "agentId")) = true →
      ∃ msg, OITVOIPMCPServer.callTool c ( "logout_agent") args =
        (Except.ok (textReply (mkBody
          (NetSapiensClient.logoutAgent c (getArg args ( "domain")) (getArg args ( "queueId")) (getArg args ( "agentId"))).1 msg)),
         (NetSapiensClient.logoutAgent c (getArg args ( "domain")) (getArg args ( "queueId")) (getArg args ( "agentId"))).2)) ∧    (∀ (c : Transport) (args : Args),
      truthy (getArg args ( "domain")) = true →
      ∃ msg, OITVOIPMCPServer.callTool c ( "get_auto_attendants") args =
        (Except.ok (textReply (mkBody
          (NetSapiensClient.getAutoAttendants c (getArg args ( "domain"))).1 msg)),
         (NetSapiensClient.getAutoAttendants c (getArg args ( "domain"))).2)) ∧    (∀ (c : Transport) (args : Args),
      truthy (getArg args ( "userId")) = true →
      truthy (getArg args ( "domain")) = true →
      ∃ msg, OITVOIPMCPServer.callTool c ( "get_user_answer_rules") args =
        (Except.ok (textReply (mkBody
          (NetSapiensClient.getUserAnswerRules c (getArg args ( "userId")) (getArg args ( "domain"))).1 msg)),
         (NetSapiensClient.getUserAnswerRules c (getArg args ( "userId")) (getArg args ( "domain"))).2)) ∧    (∀ (c : Transport) (args : Args),
      truthy (getArg args ( "userId")) = true →
      truthy (getArg args ( "domain")) = true →
      truthy (getArg args ( "timeframe")) = true →
      ∃ msg, OITVOIPMCPServer.callTool c ( "get_user_answer_rule") args =
        (Except.ok (textReply (mkBody
          (NetSapiensClient.getUserAnswerRule c (getArg args ( "userId")) (getArg args ( "domain")) (getArg args ( "timeframe"))).1 msg)),
         (NetSapiensClient.getUserAnswerRule c (getArg args ( "userId")) (getArg args ( "domain")) (getArg args ( "timeframe"))).2)) ∧    (∀ (c : Transport) (args : Args),
      truthy (getArg args ( "userId")) = true →
      truthy (getArg args ( "domain")) = true →
      ∃ msg, OITVOIPMCPServer.callTool c ( "get_user_greetings") args =
        (Except.ok (textReply (mkBody
          (NetSapiensClient.getUserGreetings c (getArg args ( "userId")) (getArg args ( "domain"))).1 msg)),
         (NetSapiensClient.getUserGreetings c (getArg args ( "userId")) (getArg args ( "domain"))).2)) ∧    (∀ (c : Transport) (args : Args),
      truthy (getArg args ( "userId")) = true →
      truthy (getArg args ( "domain")) = true →
      ∃ msg, OITVOIPMCPServer.callTool c ( "get_user_voicemails") args =
        (Except.ok (textReply (mkBody
          (NetSapiensClient.getUserVoicemails c (getArg args ( "userId")) (getArg args ( "domain"))).1 msg)),
         (NetSapiensClient.getUserVoicemails c (getArg args ( "userId")) (getArg args ( "domain"))).2)) ∧    (∀ (c : Transport) (args : Args),
      truthy (getArg args ( "domain")) = true →
      ∃ msg, OITVOIPMCPServer.callTool c ( "get_music_on_hold") args =
        (Except.ok (textReply (mkBody
          (NetSapiensClient.getMusicOnHold c (getArg args ( "domain"))).1 msg)),
         (NetSapiensClient.getMusicOnHold c (getArg args ( "domain"))).2)) ∧    (∀ (c : Transport) (args : Args),
      truthy (getArg args ( "domain")) = true →
      ∃ msg, OITVOIPMCPServer.callTool c ( "get_billing") args =
        (Except.ok (textReply (mkBody
          (NetSapiensClient.getBilling c (getArg args ( "domain"))).1 msg)),
         (NetSapiensClient.getBilling c (getArg args ( "domain"))).2)) ∧    (∀ (c : Transport) (args : Args),
      truthy (getArg args ( "domain")) = true →
      ∃ msg, OITVOIPMCPServer.callTool c ( "get_agent_statistics") args =
        (Except.ok (textReply (mkBody
          (NetSapiensClient.getAgentStatistics c (getArg args ( "domain")) (getArg args ( "agentId"))).1 msg)),
         (NetSapiensClient.getAgentStatistics c (getArg args ( "domain")) (getArg args ( "agentId"))).2)) ∧    (∀ (c : Transport) (args : Args),
      ∃ msg, OITVOIPMCPServer.callTool c ( "test_connection") args =
        (Except.ok (textReply
          [(( "success"),
            JsValue.bool (NetSapiensClient.testConnection c).1.success),
           (( "message"), msg),
           (( "error"), (NetSapiensClient.testConnection c).1.error)]),
         (NetSapiensClient.testConnection c).2)) := by
  refine ⟨?_, ?_, ?_, ?_, ?_, ?_, ?_, ?_, ?_, ?_, ?_, ?_, ?_, ?_, ?_, ?_, ?_, ?_, ?_, ?_, ?_, ?_, ?_⟩
  · intro c args h1
    have e : OITVOIPMCPServer.callTool c ( "search_users") args =
        OITVOIPMCPServer.handleSearchUsers c args := rfl
    rw [e]
    have hcond : (!truthy (getArg args ( "query"))) = false := by
      simp [h1]
    simp only [OITVOIPMCPServer.handleSearchUsers, hcond]
    exact ⟨_, rfl⟩
  · intro c args h1 h2
    have e : OITVOIPMCPServer.callTool c ( "get_user") args =
        OITVOIPMCPServer.handleGetUser c args := rfl
    rw [e]
    have hcond : (!truthy (getArg args ( "userId")) ||
          !truthy (getArg args ( "domain"))) = false := by
      simp [h1, h2]
    simp only [OITVOIPMCPServer.handleGetUser, hcond]
    exact ⟨_, rfl⟩
  · intro c args
    exact ⟨_, rfl⟩
  · intro c args
    exact ⟨_, rfl⟩
  · intro c args h1
    have e : OITVOIPMCPServer.callTool c ( "get_domain") args =
        OITVOIPMCPServer.handleGetDomain c args := rfl
    rw [e]
    have hcond : (!truthy (getArg args ( "domain"))) = false := by
      simp [h1]
    simp only [OITVOIPMCPServer.handleGetDomain, hcond]
    exact ⟨_, rfl⟩
  · intro c args h1 h2
    have e : OITVOIPMCPServer.callTool c ( "get_user_devices") args =
        OITVOIPMCPServer.handleGetUserDevices c args := rfl
    rw [e]
    have hcond : (!truthy (getArg args ( "userId")) ||
          !truthy (getArg args ( "domain"))) = false := by
      simp [h1, h2]
    simp only [OITVOIPMCPServer.handleGetUserDevices, hcond]
    exact ⟨_, rfl⟩
  · intro c args h1
    have e : OITVOIPMCPServer.callTool c ( "get_phone_numbers") args =
        OITVOIPMCPServer.handleGetPhoneNumbers c args := rfl
    rw [e]
    have hcond : (!truthy (getArg args ( "domain"))) = false := by
      simp [h1]
    simp only [OITVOIPMCPServer.handleGetPhoneNumbers, hcond]
    exact ⟨_, rfl⟩
  · intro c args h1 h2
    have e : OITVOIPMCPServer.callTool c ( "get_phone_number") args =
        OITVOIPMCPServer.handleGetPhoneNumber c args := rfl
    rw [e]
    have hcond : (!truthy (getArg args ( "domain")) ||
          !truthy (getArg args ( "phoneNumber"))) = false := by
      simp [h1, h2]
    simp only [OITVOIPMCPServer.handleGetPhoneNumber, hcond]
    exact ⟨_, rfl⟩
  · intro c args h1
    have e : OITVOIPMCPServer.callTool c ( "get_call_queues") args =
        OITVOIPMCPServer.handleGetCallQueues c args := rfl
    rw [e]
    have hcond : (!truthy (getArg args ( "domain"))) = false := by
      simp [h1]
    simp only [OITVOIPMCPServer.handleGetCallQueues, hcond]
    exact ⟨_, rfl⟩
  · intro c args h1 h2
    have e : OITVOIPMCPServer.callTool c ( "get_call_queue") args =
        OITVOIPMCPServer.handleGetCallQueue c args := rfl
    rw [e]
    have hcond : (!truthy (getArg args ( "domain")) ||
          !truthy (getArg args ( "queueId"))) = false := by
      simp [h1, h2]
    simp only [OITVOIPMCPServer.handleGetCallQueue, hcond]
    exact ⟨_, rfl⟩
  · intro c args h1 h2
    have e : OITVOIPMCPServer.callTool c ( "get_call_queue_agents") args =
        OITVOIPMCPServer.handleGetCallQueueAgents c args := rfl
    rw [e]
    have hcond : (!truthy (getArg args ( "domain")) ||
          !truthy (getArg args ( "queueId"))) = false := by
      simp [h1, h2]
    simp only [OITVOIPMCPServer.handleGetCallQueueAgents, hcond]
    exact ⟨_, rfl⟩
  · intro c args h1
    have e : OITVOIPMCPServer.callTool c ( "get_agents") args =
        OITVOIPMCPServer.handleGetAgents c args := rfl
    rw [e]
    have hcond : (!truthy (getArg args ( "domain"))) = false := by
      simp [h1]
    simp only [OITVOIPMCPServer.handleGetAgents, hcond]
    exact ⟨_, rfl⟩
  · intro c args h1 h2 h3
    have e : OITVOIPMCPServer.callTool c ( "login_agent") args =
        OITVOIPMCPServer.handleLoginAgent c args := rfl
    rw [e]
    have hcond : (!truthy (getArg args ( "domain")) ||
          !truthy (getArg args ( "queueId")) ||
          !truthy (getArg args ( "agentId"))) = false := by
      simp [h1, h2, h3]
    simp only [OITVOIPMCPServer.handleLoginAgent, hcond]
    exact ⟨_, rfl⟩
  · intro c args h1 h2 h3
    have e : OITVOIPMCPServer.callTool c ( "logout_agent") args =
        OITVOIPMCPServer.handleLogoutAgent c args := rfl
    rw [e]
    have hcond : (!truthy (getArg args ( "domain")) ||
          !truthy (getArg args ( "queueId")) ||
          !truthy (getArg args ( "agentId"))) = false := by
      simp [h1, h2, h3]
    simp only [OITVOIPMCPServer.handleLogoutAgent, hcond]
    exact ⟨_, rfl⟩
  · intro c args h1
    have e : OITVOIPMCPServer.callTool c ( "get_auto_attendants") args =
        OITVOIPMCPServer.handleGetAutoAttendants c args := rfl
    rw [e]
    have hcond : (!truthy (getArg args ( "domain"))) = false := by
      simp [h1]
    simp only [OITVOIPMCPServer.handleGetAutoAttendants, hcond]
    exact ⟨_, rfl⟩
  · intro c args h1 h2
    have e : OITVOIPMCPServer.callTool c ( "get_user_answer_rules") args =
        OITVOIPMCPServer.handleGetUserAnswerRules c args := rfl
    rw [e]
    have hcond : (!truthy (getArg args ( "userId")) ||
          !truthy (getArg args ( "domain"))) = false := by
      simp [h1, h2]
    simp only [OITVOIPMCPServer.handleGetUserAnswerRules, hcond]
    exact ⟨_, rfl⟩
  · intro c args h1 h2 h3
    have e : OITVOIPMCPServer.callTool c ( "get_user_answer_rule") args =
        OITVOIPMCPServer.handleGetUserAnswerRule c args := rfl
    rw [e]
    have hcond : (!truthy (getArg args ( "userId")) ||
          !truthy (getArg args ( "domain")) ||
          !truthy (getArg args ( "timeframe"))) = false := by
      simp [h1, h2, h3]
    simp only [OITVOIPMCPServer.handleGetUserAnswerRule, hcond]
    exact ⟨_, rfl⟩
  · intro c args h1 h2
    have e : OITVOIPMCPServer.callTool c ( "get_user_greetings") args =
        OITVOIPMCPServer.handleGetUserGreetings c args := rfl
    rw [e]
    have hcond : (!truthy (getArg args ( "userId")) ||
          !truthy (getArg args ( "domain"))) = false := by
      simp [h1, h2]
    simp only [OITVOIPMCPServer.handleGetUserGreetings, hcond]
    exact ⟨_, rfl⟩
  · intro c args h1 h2
    have e : OITVOIPMCPServer.callTool c ( "get_user_voicemails") args =
        OITVOIPMCPServer.handleGetUserVoicemails c args := rfl
    rw [e]
    have hcond : (!truthy (getArg args ( "userId")) ||
          !truthy (getArg args ( "domain"))) = false := by
      simp [h1, h2]
    simp only [OITVOIPMCPServer.handleGetUserVoicemails, hcond]
    exact ⟨_, rfl⟩
  · intro c args h1
    have e : OITVOIPMCPServer.callTool c ( "get_music_on_hold") args =
        OITVOIPMCPServer.handleGetMusicOnHold c args := rfl
    rw [e]
    have hcond : (!truthy (getArg args ( "domain"))) = false := by
      simp [h1]
    simp only [OITVOIPMCPServer.handleGetMusicOnHold, hcond]
    exact ⟨_, rfl⟩
  · intro c args h1
    have e : OITVOIPMCPServer.callTool c ( "get_billing") args =
        OITVOIPMCPServer.handleGetBilling c args := rfl
    rw [e]
    have hcond : (!truthy (getArg args ( "domain"))) = false := by
      simp [h1]
    simp only [OITVOIPMCPServer.handleGetBilling, hcond]
    exact ⟨_, rfl⟩
  · intro c args h1
    have e : OITVOIPMCPServer.callTool c ( "get_agent_statistics") args =
        OITVOIPMCPServer.handleGetAgentStatistics c args := rfl
    rw [e]
    have hcond : (!truthy (getArg args ( "domain"))) = false := by
      simp [h1]
    simp only [OITVOIPMCPServer.handleGetAgentStatistics, hcond]
    exact ⟨_, rfl⟩
  · intro c args
    exact ⟨_, rfl⟩

/-- Witness for the amended C4: a concrete `get_user` call produces the
four-field body copied from its gateway result (whose `data` here is the
mock body `{}`), and a concrete `test_connection` call produces the
three-field body. -/
theorem reply_shape_amended_witness :
    (∃ msg, OITVOIPMCPServer.callTool (okT (.obj [])) ( "get_user")
        [(( "userId"), .str ( "alice")), (( "domain"), .str ( "example.com"))] =
      (Except.ok (textReply (mkBody
        (NetSapiensClient.getUser (okT (.obj []))
          (getArg [(( "userId"), .str ( "alice")), (( "domain"), .str ( "example.com"))] ( "userId"))
          (getArg [(( "userId"), .str ( "alice")), (( "domain"), .str ( "example.com"))] ( "domain"))).1 msg)),
       (NetSapiensClient.getUser (okT (.obj []))
         (getArg [(( "userId"), .str ( "alice")), (( "domain"), .str ( "example.com"))] ( "userId"))
         (getArg [(( "userId"), .str ( "alice")), (( "domain"), .str ( "example.com"))] ( "domain"))).2)) ∧
    (NetSapiensClient.getUser (okT (.obj []))
      (.str ( "alice")) (.str ( "example.com"))).1 =
      { success := true, data := .obj [] } ∧
    (∃ msg, OITVOIPMCPServer.callTool (okT .null) ( "test_connection") [] =
      (Except.ok (textReply
        [(( "success"), JsValue.bool true), (( "message"), msg),
         (( "error"), JsValue.undefined)]),
       [{ method := .get, path := "/domains"
          params := [(( "limit"), JsValue.num 1)] }])) := by
  refine ⟨reply_shape_amended.2.1 (okT (.obj [])) [(( "userId"), .str ( "alice")), (( "domain"), .str ( "example.com"))] rfl rfl, rfl, ?_⟩
  obtain ⟨msg, h⟩ := reply_shape_amended.2.2.2.2.2.2.2.2.2.2.2.2.2.2.2.2.2.2.2.2.2.2 (okT .null) []
  exact ⟨msg, h⟩

/-- The tools whose gateway operation returns a single entity
(`data` is `undefined` on failure). -/
def singleEntityTools : List String :=
  [( "get_user"),
   ( "get_domain"),
   ( "get_phone_number"),
   ( "get_call_queue"),
   ( "login_agent"),
   ( "logout_agent"),
   ( "get_user_answer_rule"),
   ( "get_billing"),
   ( "get_agent_statistics")]

/-- The tools whose gateway operation returns a list
(`data` is `[]` on failure). -/
def listReturningTools : List String :=
  [( "search_users"),
   ( "get_cdr_records"),
   ( "get_domains"),
   ( "get_user_devices"),
   ( "get_phone_numbers"),
   ( "get_call_queues"),
   ( "get_call_queue_agents"),
   ( "get_agents"),
   ( "get_auto_attendants"),
   ( "get_user_answer_rules"),
   ( "get_user_greetings"),
   ( "get_user_voicemails"),
   ( "get_music_on_hold")]

/-- C10: because `JSON.stringify` drops `undefined`-valued keys, every
tool's serialized reply body omits the `error` key on a 2xx outcome;
every failed single-entity operation's body omits the `data` key; and
every failed list operation's body carries an explicit empty-array
`data` value. -/
theorem serialization_key_dropping :
    (∀ (n : String) (args : Args) (body : JsValue),
      n ∈ catalogNames → validArgs n args = true →
      ∃ bl reqs, OITVOIPMCPServer.callTool (okT body) n args =
        (Except.ok { content := [bl] }, reqs) ∧
        ( "error") ∉ (serializeFields bl.fields).map Prod.fst) ∧
    (∀ (n : String) (args : Args) (m : JsValue),
      n ∈ singleEntityTools → validArgs n args = true →
      ∃ bl reqs, OITVOIPMCPServer.callTool (failT m) n args =
        (Except.ok { content := [bl] }, reqs) ∧
        ( "data") ∉ (serializeFields bl.fields).map Prod.fst) ∧
    (∀ (n : String) (args : Args) (m : JsValue),
      n ∈ listReturningTools → validArgs n args = true →
      ∃ bl reqs, OITVOIPMCPServer.callTool (failT m) n args =
        (Except.ok { content := [bl] }, reqs) ∧
        (( "data"), JsValue.arr []) ∈ serializeFields bl.fields) := by
  refine ⟨?_, ?_, ?_⟩
  · intro n args body hn hv
    have hn2 : n ∈ [( "search_users"),
      ( "get_user"),
      ( "get_cdr_records"),
      ( "get_domains"),
      ( "get_domain"),
      ( "get_user_devices"),
      ( "get_phone_numbers"),
      ( "get_phone_number"),
      ( "get_call_queues"),
      ( "get_call_queue"),
      ( "get_call_queue_agents"),
      ( "get_agents"),
      ( "login_agent"),
      ( "logout_agent"),
      ( "get_auto_attendants"),
      ( "get_user_answer_rules"),
      ( "get_user_answer_rule"),
      ( "get_user_greetings"),
      ( "get_user_voicemails"),
      ( "get_music_on_hold"),
      ( "get_billing"),
      ( "get_agent_statistics"),
      ( "test_connection")] := hn
    simp only [List.mem_cons, List.mem_singleton, List.mem_nil_iff,
      or_false] at hn2
    rcases hn2 with rfl | rfl | rfl | rfl | rfl | rfl | rfl | rfl | rfl | rfl | rfl | rfl | rfl | rfl | rfl | rfl | rfl | rfl | rfl | rfl | rfl | rfl | rfl
    · have e : OITVOIPMCPServer.callTool (okT body) ( "search_users") args =
          OITVOIPMCPServer.handleSearchUsers (okT body) args := rfl
      rw [e]
      have hv2 : List.all [( "query")]
          (fun p => truthy (getArg args p)) = true := hv
      simp only [List.all_cons, List.all_nil, Bool.and_eq_true,
        Bool.and_true] at hv2
      have hcond : (!truthy (getArg args ( "query"))) = false := by
        simp [hv2]
      simp only [OITVOIPMCPServer.handleSearchUsers, hcond]
      refine ⟨_, _, rfl, ?_⟩
      simp [serializeFields, mkBody, textReply, NetSapiensClient.searchUsers,
        okT, isUndefined, List.mem_map, List.mem_filter]
    · have e : OITVOIPMCPServer.callTool (okT body) ( "get_user") args =
          OITVOIPMCPServer.handleGetUser (okT body) args := rfl
      rw [e]
      have hv2 : List.all [( "userId"), ( "domain")]
          (fun p => truthy (getArg args p)) = true := hv
      simp only [List.all_cons, List.all_nil, Bool.and_eq_true,
        Bool.and_true] at hv2
      have hcond : (!truthy (getArg args ( "userId")) ||
          !truthy (getArg args ( "domain"))) = false := by
        simp [hv2.1, hv2.2]
      simp only [OITVOIPMCPServer.handleGetUser, hcond]
      refine ⟨_, _, rfl, ?_⟩
      simp [serializeFields, mkBody, textReply, NetSapiensClient.getUser,
        okT, isUndefined, List.mem_map, List.mem_filter]
    · refine ⟨_, _, rfl, ?_⟩
      simp [serializeFields, mkBody, textReply, NetSapiensClient.getCDRRecords,
        okT, isUndefined, List.mem_map, List.mem_filter]
    · refine ⟨_, _, rfl, ?_⟩
      simp [serializeFields, mkBody, textReply, NetSapiensClient.getDomains,
        okT, isUndefined, List.mem_map, List.mem_filter]
    · have e : OITVOIPMCPServer.callTool (okT body) ( "get_domain") args =
          OITVOIPMCPServer.handleGetDomain (okT body) args := rfl
      rw [e]
      have hv2 : List.all [( "domain")]
          (fun p => truthy (getArg args p)) = true := hv
      simp only [List.all_cons, List.all_nil, Bool.and_eq_true,
        Bool.and_true] at hv2
      have hcond : (!truthy (getArg args ( "domain"))) = false := by
        simp [hv2]
      simp only [OITVOIPMCPServer.handleGetDomain, hcond]
      refine ⟨_, _, rfl, ?_⟩
      simp [serializeFields, mkBody, textReply, NetSapiensClient.getDomain,
        okT, isUndefined, List.mem_map, List.mem_filter]
    · have e : OITVOIPMCPServer.callTool (okT body) ( "get_user_devices") args =
          OITVOIPMCPServer.handleGetUserDevices (okT body) args := rfl
      rw [e]
      have hv2 : List.all [( "userId"), ( "domain")]
          (fun p => truthy (getArg args p)) = true := hv
      simp only [List.all_cons, List.all_nil, Bool.and_eq_true,
        Bool.and_true] at hv2
      have hcond : (!truthy (getArg args ( "userId")) ||
          !truthy (getArg args ( "domain"))) = false := by
        simp [hv2.1, hv2.2]
      simp only [OITVOIPMCPServer.handleGetUserDevices, hcond]
      refine ⟨_, _, rfl, ?_⟩
      simp [serializeFields, mkBody, textReply, NetSapiensClient.getUserDevices,
        okT, isUndefined, List.mem_map, List.mem_filter]
    · have e : OITVOIPMCPServer.callTool (okT body) ( "get_phone_numbers") args =
          OITVOIPMCPServer.handleGetPhoneNumbers (okT body) args := rfl
      rw [e]
      have hv2 : List.all [( "domain")]
          (fun p => truthy (getArg args p)) = true := hv
      simp only [List.all_cons, List.all_nil, Bool.and_eq_true,
        Bool.and_true] at hv2
      have hcond : (!truthy (getArg args ( "domain"))) = false := by
        simp [hv2]
      simp only [OITVOIPMCPServer.handleGetPhoneNumbers, hcond]
      refine ⟨_, _, rfl, ?_⟩
      simp [serializeFields, mkBody, textReply, NetSapiensClient.getPhoneNumbers,
        okT, isUndefined, List.mem_map, List.mem_filter]
    · have e : OITVOIPMCPServer.callTool (okT body) ( "get_phone_number") args =
          OITVOIPMCPServer.handleGetPhoneNumber (okT body) args := rfl
      rw [e]
      have hv2 : List.all [( "domain"), ( "phoneNumber")]
          (fun p => truthy (getArg args p)) = true := hv
      simp only [List.all_cons, List.all_nil, Bool.and_eq_true,
        Bool.and_true] at hv2
      have hcond : (!truthy (getArg args ( "domain")) ||
          !truthy (getArg args ( "phoneNumber"))) = false := by
        simp [hv2.1, hv2.2]
      simp only [OITVOIPMCPServer.handleGetPhoneNumber, hcond]
      refine ⟨_, _, rfl, ?_⟩
      simp [serializeFields, mkBody, textReply, NetSapiensClient.getPhoneNumber,
        okT, isUndefined, List.mem_map, List.mem_filter]
    · have e : OITVOIPMCPServer.callTool (okT body) ( "get_call_queues") args =
          OITVOIPMCPServer.handleGetCallQueues (okT body) args := rfl
      rw [e]
      have hv2 : List.all [( "domain")]
          (fun p => truthy (getArg args p)) = true := hv
      simp only [List.all_cons, List.all_nil, Bool.and_eq_true,
        Bool.and_true] at hv2
      have hcond : (!truthy (getArg args ( "domain"))) = false := by
        simp [hv2]
      simp only [OITVOIPMCPServer.handleGetCallQueues, hcond]
      refine ⟨_, _, rfl, ?_⟩
      simp [serializeFields, mkBody, textReply, NetSapiensClient.getCallQueues,
        okT, isUndefined, List.mem_map, List.mem_filter]
    · have e : OITVOIPMCPServer.callTool (okT body) ( "get_call_queue") args =
          OITVOIPMCPServer.handleGetCallQueue (okT body) args := rfl
      rw [e]
      have hv2 : List.all [( "domain"), ( "queueId")]
          (fun p => truthy (getArg args p)) = true := hv
      simp only [List.all_cons, List.all_nil, Bool.and_eq_true,
        Bool.and_true] at hv2
      have hcond : (!truthy (getArg args ( "domain")) ||
          !truthy (getArg args ( "queueId"))) = false := by
        simp [hv2.1, hv2.2]
      simp only [OITVOIPMCPServer.handleGetCallQueue, hcond]
      refine ⟨_, _, rfl, ?_⟩
      simp [serializeFields, mkBody, textReply, NetSapiensClient.getCallQueue,
        okT, isUndefined, List.mem_map, List.mem_filter]
    · have e : OITVOIPMCPServer.callTool (okT body) ( "get_call_queue_agents") args =
          OITVOIPMCPServer.handleGetCallQueueAgents (okT body) args := rfl
      rw [e]
      have hv2 : List.all [( "domain"), ( "queueId")]
          (fun p => truthy (getArg args p)) = true := hv
      simp only [List.all_cons, List.all_nil, Bool.and_eq_true,
        Bool.and_true] at hv2
      have hcond : (!truthy (getArg args ( "domain")) ||
          !truthy (getArg args ( "queueId"))) = false := by
        simp [hv2.1, hv2.2]
      simp only [OITVOIPMCPServer.handleGetCallQueueAgents, hcond]
      refine ⟨_, _, rfl, ?_⟩
      simp [serializeFields, mkBody, textReply, NetSapiensClient.getCallQueueAgents,
        okT, isUndefined, List.mem_map, List.mem_filter]
    · have e : OITVOIPMCPServer.callTool (okT body) ( "get_agents") args =
          OITVOIPMCPServer.handleGetAgents (okT body) args := rfl
      rw [e]
      have hv2 : List.all [( "domain")]
          (fun p => truthy (getArg args p)) = true := hv
      simp only [List.all_cons, List.all_nil, Bool.and_eq_true,
        Bool.and_true] at hv2
      have hcond : (!truthy (getArg args ( "domain"))) = false := by
        simp [hv2]
      simp only [OITVOIPMCPServer.handleGetAgents, hcond]
      refine ⟨_, _, rfl, ?_⟩
      simp [serializeFields, mkBody, textReply, NetSapiensClient.getAgents,
        okT, isUndefined, List.mem_map, List.mem_filter]
    · have e : OITVOIPMCPServer.callTool (okT body) ( "login_agent") args =
          OITVOIPMCPServer.handleLoginAgent (okT body) args := rfl
      rw [e]
      have hv2 : List.all [( "domain"), ( "queueId"), ( "agentId")]
          (fun p => truthy (getArg args p)) = true := hv
      simp only [List.all_cons, List.all_nil, Bool.and_eq_true,
        Bool.and_true] at hv2
      have hcond : (!truthy (getArg args ( "domain")) ||
          !truthy (getArg args ( "queueId")) ||
          !truthy (getArg args ( "agentId"))) = false := by
        simp [hv2.1, hv2.2.1, hv2.2.2]
      simp only [OITVOIPMCPServer.handleLoginAgent, hcond]
      refine ⟨_, _, rfl, ?_⟩
      simp [serializeFields, mkBody, textReply, NetSapiensClient.loginAgent,
        okT, isUndefined, List.mem_map, List.mem_filter]
    · have e : OITVOIPMCPServer.callTool (okT body) ( "logout_agent") args =
          OITVOIPMCPServer.handleLogoutAgent (okT body) args := rfl
      rw [e]
      have hv2 : List.all [( "domain"), ( "queueId"), ( "agentId")]
          (fun p => truthy (getArg args p)) = true := hv
      simp only [List.all_cons, List.all_nil, Bool.and_eq_true,
        Bool.and_true] at hv2
      have hcond : (!truthy (getArg args ( "domain")) ||
          !truthy (getArg args ( "queueId")) ||
          !truthy (getArg args ( "agentId"))) = false := by
        simp [hv2.1, hv2.2.1, hv2.2.2]
      simp only [OITVOIPMCPServer.handleLogoutAgent, hcond]
      refine ⟨_, _, rfl, ?_⟩
      simp [serializeFields, mkBody, textReply, NetSapiensClient.logoutAgent,
        okT, isUndefined, List.mem_map, List.mem_filter]
    · have e : OITVOIPMCPServer.callTool (okT body) ( "get_auto_attendants") args =
          OITVOIPMCPServer.handleGetAutoAttendants (okT body) args := rfl
      rw [e]
      have hv2 : List.all [( "domain")]
          (fun p => truthy (getArg args p)) = true := hv
      simp only [List.all_cons, List.all_nil, Bool.and_eq_true,
        Bool.and_true] at hv2
      have hcond : (!truthy (getArg args ( "domain"))) = false := by
        simp [hv2]
      simp only [OITVOIPMCPServer.handleGetAutoAttendants, hcond]
      refine ⟨_, _, rfl, ?_⟩
      simp [serializeFields, mkBody, textReply, NetSapiensClient.getAutoAttendants,
        okT, isUndefined, List.mem_map, List.mem_filter]
    · have e : OITVOIPMCPServer.callTool (okT body) ( "get_user_answer_rules") args =
          OITVOIPMCPServer.handleGetUserAnswerRules (okT body) args := rfl
      rw [e]
      have hv2 : List.all [( "userId"), ( "domain")]
          (fun p => truthy (getArg args p)) = true := hv
      simp only [List.all_cons, List.all_nil, Bool.and_eq_true,
        Bool.and_true] at hv2
      have hcond : (!truthy (getArg args ( "userId")) ||
          !truthy (getArg args ( "domain"))) = false := by
        simp [hv2.1, hv2.2]
      simp only [OITVOIPMCPServer.handleGetUserAnswerRules, hcond]
      refine ⟨_, _, rfl, ?_⟩
      simp [serializeFields, mkBody, textReply, NetSapiensClient.getUserAnswerRules,
        okT, isUndefined, List.mem_map, List.mem_filter]
    · have e : OITVOIPMCPServer.callTool (okT body) ( "get_user_answer_rule") args =
          OITVOIPMCPServer.handleGetUserAnswerRule (okT body) args := rfl
      rw [e]
      have hv2 : List.all [( "userId"), ( "domain"), ( "timeframe")]
          (fun p => truthy (getArg args p)) = true := hv
      simp only [List.all_cons, List.all_nil, Bool.and_eq_true,
        Bool.and_true] at hv2
      have hcond : (!truthy (getArg args ( "userId")) ||
          !truthy (getArg args ( "domain")) ||
          !truthy (getArg args ( "timeframe"))) = false := by
        simp [hv2.1, hv2.2.1, hv2.2.2]
      simp only [OITVOIPMCPServer.handleGetUserAnswerRule, hcond]
      refine ⟨_, _, rfl, ?_⟩
      simp [serializeFields, mkBody, textReply, NetSapiensClient.getUserAnswerRule,
        okT, isUndefined, List.mem_map, List.mem_filter]
    · have e : OITVOIPMCPServer.callTool (okT body) ( "get_user_greetings") args =
          OITVOIPMCPServer.handleGetUserGreetings (okT body) args := rfl
      rw [e]
      have hv2 : List.all [( "userId"), ( "domain")]
          (fun p => truthy (getArg args p)) = true := hv
      simp only [List.all_cons, List.all_nil, Bool.and_eq_true,
        Bool.and_true] at hv2
      have hcond : (!truthy (getArg args ( "userId")) ||
          !truthy (getArg args ( "domain"))) = false := by
        simp [hv2.1, hv2.2]
      simp only [OITVOIPMCPServer.handleGetUserGreetings, hcond]
      refine ⟨_, _, rfl, ?_⟩
      simp [serializeFields, mkBody, textReply, NetSapiensClient.getUserGreetings,
        okT, isUndefined, List.mem_map, List.mem_filter]
    · have e : OITVOIPMCPServer.callTool (okT body) ( "get_user_voicemails") args =
          OITVOIPMCPServer.handleGetUserVoicemails (okT body) args := rfl
      rw [e]
      have hv2 : List.all [( "userId"), ( "domain")]
          (fun p => truthy (getArg args p)) = true := hv
      simp only [List.all_cons, List.all_nil, Bool.and_eq_true,
        Bool.and_true] at hv2
      have hcond : (!truthy (getArg args ( "userId")) ||
          !truthy (getArg args ( "domain"))) = false := by
        simp [hv2.1, hv2.2]
      simp only [OITVOIPMCPServer.handleGetUserVoicemails, hcond]
      refine ⟨_, _, rfl, ?_⟩
      simp [serializeFields, mkBody, textReply, NetSapiensClient.getUserVoicemails,
        okT, isUndefined, List.mem_map, List.mem_filter]
    · have e : OITVOIPMCPServer.callTool (okT body) ( "get_music_on_hold") args =
          OITVOIPMCPServer.handleGetMusicOnHold (okT body) args := rfl
      rw [e]
      have hv2 : List.all [( "domain")]
          (fun p => truthy (getArg args p)) = true := hv
      simp only [List.all_cons, List.all_nil, Bool.and_eq_true,
        Bool.and_true] at hv2
      have hcond : (!truthy (getArg args ( "domain"))) = false := by
        simp [hv2]
      simp only [OITVOIPMCPServer.handleGetMusicOnHold, hcond]
      refine ⟨_, _, rfl, ?_⟩
      simp [serializeFields, mkBody, textReply, NetSapiensClient.getMusicOnHold,
        okT, isUndefined, List.mem_map, List.mem_filter]
    · have e : OITVOIPMCPServer.callTool (okT body) ( "get_billing") args =
          OITVOIPMCPServer.handleGetBilling (okT body) args := rfl
      rw [e]
      have hv2 : List.all [( "domain")]
          (fun p => truthy (getArg args p)) = true := hv
      simp only [List.all_cons, List.all_nil, Bool.and_eq_true,
        Bool.and_true] at hv2
      have hcond : (!truthy (getArg args ( "domain"))) = false := by
        simp [hv2]
      simp only [OITVOIPMCPServer.handleGetBilling, hcond]
      refine ⟨_, _, rfl, ?_⟩
      simp [serializeFields, mkBody, textReply, NetSapiensClient.getBilling,
        okT, isUndefined, List.mem_map, List.mem_filter]
    · have e : OITVOIPMCPServer.callTool (okT body) ( "get_agent_statistics") args =
          OITVOIPMCPServer.handleGetAgentStatistics (okT body) args := rfl
      rw [e]
      have hv2 : List.all [( "domain")]
          (fun p => truthy (getArg args p)) = true := hv
      simp only [List.all_cons, List.all_nil, Bool.and_eq_true,
        Bool.and_true] at hv2
      have hcond : (!truthy (getArg args ( "domain"))) = false := by
        simp [hv2]
      simp only [OITVOIPMCPServer.handleGetAgentStatistics, hcond]
      refine ⟨_, _, rfl, ?_⟩
      simp [serializeFields, mkBody, textReply, NetSapiensClient.getAgentStatistics,
        okT, isUndefined, List.mem_map, List.mem_filter]
    · refine ⟨_, _, rfl, ?_⟩
      simp [serializeFields, mkBody, textReply, NetSapiensClient.testConnection,
        okT, isUndefined, List.mem_map, List.mem_filter]
  · intro n args m hn hv
    have hn2 : n ∈ [( "get_user"),      ( "get_domain"),      ( "get_phone_number"),      ( "get_call_queue"),      ( "login_agent"),      ( "logout_agent"),      ( "get_user_answer_rule"),      ( "get_billing"),      ( "get_agent_statistics")] := hn
    simp only [List.mem_cons, List.mem_singleton, List.mem_nil_iff,
      or_false] at hn2
    rcases hn2 with rfl | rfl | rfl | rfl | rfl | rfl | rfl | rfl | rfl
    · have e : OITVOIPMCPServer.callTool (failT m) ( "get_user") args =
          OITVOIPMCPServer.handleGetUser (failT m) args := rfl
      rw [e]
      have hv2 : List.all [( "userId"), ( "domain")]
          (fun p => truthy (getArg args p)) = true := hv
      simp only [List.all_cons, List.all_nil, Bool.and_eq_true,
        Bool.and_true] at hv2
      have hcond : (!truthy (getArg args ( "userId")) ||
          !truthy (getArg args ( "domain"))) = false := by
        simp [hv2.1, hv2.2]
      simp only [OITVOIPMCPServer.handleGetUser, hcond]
      refine ⟨_, _, rfl, ?_⟩
      simp [serializeFields, mkBody, textReply, NetSapiensClient.getUser,
        failT, isUndefined, List.mem_map, List.mem_filter]
    · have e : OITVOIPMCPServer.callTool (failT m) ( "get_domain") args =
          OITVOIPMCPServer.handleGetDomain (failT m) args := rfl
      rw [e]
      have hv2 : List.all [( "domain")]
          (fun p => truthy (getArg args p)) = true := hv
      simp only [List.all_cons, List.all_nil, Bool.and_eq_true,
        Bool.and_true] at hv2
      have hcond : (!truthy (getArg args ( "domain"))) = false := by
        simp [hv2]
      simp only [OITVOIPMCPServer.handleGetDomain, hcond]
      refine ⟨_, _, rfl, ?_⟩
      simp [serializeFields, mkBody, textReply, NetSapiensClient.getDomain,
        failT, isUndefined, List.mem_map, List.mem_filter]
    · have e : OITVOIPMCPServer.callTool (failT m) ( "get_phone_number") args =
          OITVOIPMCPServer.handleGetPhoneNumber (failT m) args := rfl
      rw [e]
      have hv2 : List.all [( "domain"), ( "phoneNumber")]
          (fun p => truthy (getArg args p)) = true := hv
      simp only [List.all_cons, List.all_nil, Bool.and_eq_true,
        Bool.and_true] at hv2
      have hcond : (!truthy (getArg args ( "domain")) ||
          !truthy (getArg args ( "phoneNumber"))) = false := by
        simp [hv2.1, hv2.2]
      simp only [OITVOIPMCPServer.handleGetPhoneNumber, hcond]
      refine ⟨_, _, rfl, ?_⟩
      simp [serializeFields, mkBody, textReply, NetSapiensClient.getPhoneNumber,
        failT, isUndefined, List.mem_map, List.mem_filter]
    · have e : OITVOIPMCPServer.callTool (failT m) ( "get_call_queue") args =
          OITVOIPMCPServer.handleGetCallQueue (failT m) args := rfl
      rw [e]
      have hv2 : List.all [( "domain"), ( "queueId")]
          (fun p => truthy (getArg args p)) = true := hv
      simp only [List.all_cons, List.all_nil, Bool.and_eq_true,
        Bool.and_true] at hv2
      have hcond : (!truthy (getArg args ( "domain")) ||
          !truthy (getArg args ( "queueId"))) = false := by
        simp [hv2.1, hv2.2]
      simp only [OITVOIPMCPServer.handleGetCallQueue, hcond]
      refine ⟨_, _, rfl, ?_⟩
      simp [serializeFields, mkBody, textReply, NetSapiensClient.getCallQueue,
        failT, isUndefined, List.mem_map, List.mem_filter]
    · have e : OITVOIPMCPServer.callTool (failT m) ( "login_agent") args =
          OITVOIPMCPServer.handleLoginAgent (failT m) args := rfl
      rw [e]
      have hv2 : List.all [( "domain"), ( "queueId"), ( "agentId")]
          (fun p => truthy (getArg args p)) = true := hv
      simp only [List.all_cons, List.all_nil, Bool.and_eq_true,
        Bool.and_true] at hv2
      have hcond : (!truthy (getArg args ( "domain")) ||
          !truthy (getArg args ( "queueId")) ||
          !truthy (getArg args ( "agentId"))) = false := by
        simp [hv2.1, hv2.2.1, hv2.2.2]
      simp only [OITVOIPMCPServer.handleLoginAgent, hcond]
      refine ⟨_, _, rfl, ?_⟩
      simp [serializeFields, mkBody, textReply, NetSapiensClient.loginAgent,
        failT, isUndefined, List.mem_map, List.mem_filter]
    · have e : OITVOIPMCPServer.callTool (failT m) ( "logout_agent") args =
          OITVOIPMCPServer.handleLogoutAgent (failT m) args := rfl
      rw [e]
      have hv2 : List.all [( "domain"), ( "queueId"), ( "agentId")]
          (fun p => truthy (getArg args p)) = true := hv
      simp only [List.all_cons, List.all_nil, Bool.and_eq_true,
        Bool.and_true] at hv2
      have hcond : (!truthy (getArg args ( "domain")) ||
          !truthy (getArg args ( "queueId")) ||
          !truthy (getArg args ( "agentId"))) = false := by
        simp [hv2.1, hv2.2.1, hv2.2.2]
      simp only [OITVOIPMCPServer.handleLogoutAgent, hcond]
      refine ⟨_, _, rfl, ?_⟩
      simp [serializeFields, mkBody, textReply, NetSapiensClient.logoutAgent,
        failT, isUndefined, List.mem_map, List.mem_filter]
    · have e : OITVOIPMCPServer.callTool (failT m) ( "get_user_answer_rule") args =
          OITVOIPMCPServer.handleGetUserAnswerRule (failT m) args := rfl
      rw [e]
      have hv2 : List.all [( "userId"), ( "domain"), ( "timeframe")]
          (fun p => truthy (getArg args p)) = true := hv
      simp only [List.all_cons, List.all_nil, Bool.and_eq_true,
        Bool.and_true] at hv2
      have hcond : (!truthy (getArg args ( "userId")) ||
          !truthy (getArg args ( "domain")) ||
          !truthy (getArg args ( "timeframe"))) = false := by
        simp [hv2.1, hv2.2.1, hv2.2.2]
      simp only [OITVOIPMCPServer.handleGetUserAnswerRule, hcond]
      refine ⟨_, _, rfl, ?_⟩
      simp [serializeFields, mkBody, textReply, NetSapiensClient.getUserAnswerRule,
        failT, isUndefined, List.mem_map, List.mem_filter]
    · have e : OITVOIPMCPServer.callTool (failT m) ( "get_billing") args =
          OITVOIPMCPServer.handleGetBilling (failT m) args := rfl
      rw [e]
      have hv2 : List.all [( "domain")]
          (fun p => truthy (getArg args p)) = true := hv
      simp only [List.all_cons, List.all_nil, Bool.and_eq_true,
        Bool.and_true] at hv2
      have hcond : (!truthy (getArg args ( "domain"))) = false := by
        simp [hv2]
      simp only [OITVOIPMCPServer.handleGetBilling, hcond]
      refine ⟨_, _, rfl, ?_⟩
      simp [serializeFields, mkBody, textReply, NetSapiensClient.getBilling,
        failT, isUndefined, List.mem_map, List.mem_filter]
    · have e : OITVOIPMCPServer.callTool (failT m) ( "get_agent_statistics") args =
          OITVOIPMCPServer.handleGetAgentStatistics (failT m) args := rfl
      rw [e]
      have hv2 : List.all [( "domain")]
          (fun p => truthy (getArg args p)) = true := hv
      simp only [List.all_cons, List.all_nil, Bool.and_eq_true,
        Bool.and_true] at hv2
      have hcond : (!truthy (getArg args ( "domain"))) = false := by
        simp [hv2]
      simp only [OITVOIPMCPServer.handleGetAgentStatistics, hcond]
      refine ⟨_, _, rfl, ?_⟩
      simp [serializeFields, mkBody, textReply, NetSapiensClient.getAgentStatistics,
        failT, isUndefined, List.mem_map, List.mem_filter]
  · intro n args m hn hv
    have hn2 : n ∈ [( "search_users"),      ( "get_cdr_records"),      ( "get_domains"),      ( "get_user_devices"),      ( "get_phone_numbers"),      ( "get_call_queues"),      ( "get_call_queue_agents"),      ( "get_agents"),      ( "get_auto_attendants"),      ( "get_user_answer_rules"),      ( "get_user_greetings"),      ( "get_user_voicemails"),      ( "get_music_on_hold")] := hn
    simp only [List.mem_cons, List.mem_singleton, List.mem_nil_iff,
      or_false] at hn2
    rcases hn2 with rfl | rfl | rfl | rfl | rfl | rfl | rfl | rfl | rfl | rfl | rfl | rfl | rfl
    · have e : OITVOIPMCPServer.callTool (failT m) ( "search_users") args =
          OITVOIPMCPServer.handleSearchUsers (failT m) args := rfl
      rw [e]
      have hv2 : List.all [( "query")]
          (fun p => truthy (getArg args p)) = true := hv
      simp only [List.all_cons, List.all_nil, Bool.and_eq_true,
        Bool.and_true] at hv2
      have hcond : (!truthy (getArg args ( "query"))) = false := by
        simp [hv2]
      simp only [OITVOIPMCPServer.handleSearchUsers, hcond]
      refine ⟨_, _, rfl, ?_⟩
      simp [serializeFields, mkBody, textReply, NetSapiensClient.searchUsers,
        failT, isUndefined, List.mem_filter]
    · refine ⟨_, _, rfl, ?_⟩
      simp [serializeFields, mkBody, textReply, NetSapiensClient.getCDRRecords,
        failT, isUndefined, List.mem_filter]
    · refine ⟨_, _, rfl, ?_⟩
      simp [serializeFields, mkBody, textReply, NetSapiensClient.getDomains,
        failT, isUndefined, List.mem_filter]
    · have e : OITVOIPMCPServer.callTool (failT m) ( "get_user_devices") args =
          OITVOIPMCPServer.handleGetUserDevices (failT m) args := rfl
      rw [e]
      have hv2 : List.all [( "userId"), ( "domain")]
          (fun p => truthy (getArg args p)) = true := hv
      simp only [List.all_cons, List.all_nil, Bool.and_eq_true,
        Bool.and_true] at hv2
      have hcond : (!truthy (getArg args ( "userId")) ||
          !truthy (getArg args ( "domain"))) = false := by
        simp [hv2.1, hv2.2]
      simp only [OITVOIPMCPServer.handleGetUserDevices, hcond]
      refine ⟨_, _, rfl, ?_⟩
      simp [serializeFields, mkBody, textReply, NetSapiensClient.getUserDevices,
        failT, isUndefined, List.mem_filter]
    · have e : OITVOIPMCPServer.callTool (failT m) ( "get_phone_numbers") args =
          OITVOIPMCPServer.handleGetPhoneNumbers (failT m) args := rfl
      rw [e]
      have hv2 : List.all [( "domain")]
          (fun p => truthy (getArg args p)) = true := hv
      simp only [List.all_cons, List.all_nil, Bool.and_eq_true,
        Bool.and_true] at hv2
      have hcond : (!truthy (getArg args ( "domain"))) = false := by
        simp [hv2]
      simp only [OITVOIPMCPServer.handleGetPhoneNumbers, hcond]
      refine ⟨_, _, rfl, ?_⟩
      simp [serializeFields, mkBody, textReply, NetSapiensClient.getPhoneNumbers,
        failT, isUndefined, List.mem_filter]
    · have e : OITVOIPMCPServer.callTool (failT m) ( "get_call_queues") args =
          OITVOIPMCPServer.handleGetCallQueues (failT m) args := rfl
      rw [e]
      have hv2 : List.all [( "domain")]
          (fun p => truthy (getArg args p)) = true := hv
      simp only [List.all_cons, List.all_nil, Bool.and_eq_true,
        Bool.and_true] at hv2
      have hcond : (!truthy (getArg args ( "domain"))) = false := by
        simp [hv2]
      simp only [OITVOIPMCPServer.handleGetCallQueues, hcond]
      refine ⟨_, _, rfl, ?_⟩
      simp [serializeFields, mkBody, textReply, NetSapiensClient.getCallQueues,
        failT, isUndefined, List.mem_filter]
    · have e : OITVOIPMCPServer.callTool (failT m) ( "get_call_queue_agents") args =
          OITVOIPMCPServer.handleGetCallQueueAgents (failT m) args := rfl
      rw [e]
      have hv2 : List.all [( "domain"), ( "queueId")]
          (fun p => truthy (getArg args p)) = true := hv
      simp only [List.all_cons, List.all_nil, Bool.and_eq_true,
        Bool.and_true] at hv2
      have hcond : (!truthy (getArg args ( "domain")) ||
          !truthy (getArg args ( "queueId"))) = false := by
        simp [hv2.1, hv2.2]
      simp only [OITVOIPMCPServer.handleGetCallQueueAgents, hcond]
      refine ⟨_, _, rfl, ?_⟩
      simp [serializeFields, mkBody, textReply, NetSapiensClient.getCallQueueAgents,
        failT, isUndefined, List.mem_filter]
    · have e : OITVOIPMCPServer.callTool (failT m) ( "get_agents") args =
          OITVOIPMCPServer.handleGetAgents (failT m) args := rfl
      rw [e]
      have hv2 : List.all [( "domain")]
          (fun p => truthy (getArg args p)) = true := hv
      simp only [List.all_cons, List.all_nil, Bool.and_eq_true,
        Bool.and_true] at hv2
      have hcond : (!truthy (getArg args ( "domain"))) = false := by
        simp [hv2]
      simp only [OITVOIPMCPServer.handleGetAgents, hcond]
      refine ⟨_, _, rfl, ?_⟩
      simp [serializeFields, mkBody, textReply, NetSapiensClient.getAgents,
        failT, isUndefined, List.mem_filter]
    · have e : OITVOIPMCPServer.callTool (failT m) ( "get_auto_attendants") args =
          OITVOIPMCPServer.handleGetAutoAttendants (failT m) args := rfl
      rw [e]
      have hv2 : List.all [( "domain")]
          (fun p => truthy (getArg args p)) = true := hv
      simp only [List.all_cons, List.all_nil, Bool.and_eq_true,
        Bool.and_true] at hv2
      have hcond : (!truthy (getArg args ( "domain"))) = false := by
        simp [hv2]
      simp only [OITVOIPMCPServer.handleGetAutoAttendants, hcond]
      refine ⟨_, _, rfl, ?_⟩
      simp [serializeFields, mkBody, textReply, NetSapiensClient.getAutoAttendants,
        failT, isUndefined, List.mem_filter]
    · have e : OITVOIPMCPServer.callTool (failT m) ( "get_user_answer_rules") args =
          OITVOIPMCPServer.handleGetUserAnswerRules (failT m) args := rfl
      rw [e]
      have hv2 : List.all [( "userId"), ( "domain")]
          (fun p => truthy (getArg args p)) = true := hv
      simp only [List.all_cons, List.all_nil, Bool.and_eq_true,
        Bool.and_true] at hv2
      have hcond : (!truthy (getArg args ( "userId")) ||
          !truthy (getArg args ( "domain"))) = false := by
        simp [hv2.1, hv2.2]
      simp only [OITVOIPMCPServer.handleGetUserAnswerRules, hcond]
      refine ⟨_, _, rfl, ?_⟩
      simp [serializeFields, mkBody, textReply, NetSapiensClient.getUserAnswerRules,
        failT, isUndefined, List.mem_filter]
    · have e : OITVOIPMCPServer.callTool (failT m) ( "get_user_greetings") args =
          OITVOIPMCPServer.handleGetUserGreetings (failT m) args := rfl
      rw [e]
      have hv2 : List.all [( "userId"), ( "domain")]
          (fun p => truthy (getArg args p)) = true := hv
      simp only [List.all_cons, List.all_nil, Bool.and_eq_true,
        Bool.and_true] at hv2
      have hcond : (!truthy (getArg args ( "userId")) ||
          !truthy (getArg args ( "domain"))) = false := by
        simp [hv2.1, hv2.2]
      simp only [OITVOIPMCPServer.handleGetUserGreetings, hcond]
      refine ⟨_, _, rfl, ?_⟩
      simp [serializeFields, mkBody, textReply, NetSapiensClient.getUserGreetings,
        failT, isUndefined, List.mem_filter]
    · have e : OITVOIPMCPServer.callTool (failT m) ( "get_user_voicemails") args =
          OITVOIPMCPServer.handleGetUserVoicemails (failT m) args := rfl
      rw [e]
      have hv2 : List.all [( "userId"), ( "domain")]
          (fun p => truthy (getArg args p)) = true := hv
      simp only [List.all_cons, List.all_nil, Bool.and_eq_true,
        Bool.and_true] at hv2
      have hcond : (!truthy (getArg args ( "userId")) ||
          !truthy (getArg args ( "domain"))) = false := by
        simp [hv2.1, hv2.2]
      simp only [OITVOIPMCPServer.handleGetUserVoicemails, hcond]
      refine ⟨_, _, rfl, ?_⟩
      simp [serializeFields, mkBody, textReply, NetSapiensClient.getUserVoicemails,
        failT, isUndefined, List.mem_filter]
    · have e : OITVOIPMCPServer.callTool (failT m) ( "get_music_on_hold") args =
          OITVOIPMCPServer.handleGetMusicOnHold (failT m) args := rfl
      rw [e]
      have hv2 : List.all [( "domain")]
          (fun p => truthy (getArg args p)) = true := hv
      simp only [List.all_cons, List.all_nil, Bool.and_eq_true,
        Bool.and_true] at hv2
      have hcond : (!truthy (getArg args ( "domain"))) = false := by
        simp [hv2]
      simp only [OITVOIPMCPServer.handleGetMusicOnHold, hcond]
      refine ⟨_, _, rfl, ?_⟩
      simp [serializeFields, mkBody, textReply, NetSapiensClient.getMusicOnHold,
        failT, isUndefined, List.mem_filter]

/-- Witness for C10: a successful `get_domains` reply omits `error`, a
failed `get_billing` reply omits `data`, and a failed `get_domains`
reply carries `data: []`. -/
theorem serialization_key_dropping_witness :
    (∃ bl reqs, OITVOIPMCPServer.callTool (okT (.obj [])) ( "get_domains") [] =
      (Except.ok { content := [bl] }, reqs) ∧
      ( "error") ∉ (serializeFields bl.fields).map Prod.fst) ∧
    (∃ bl reqs, OITVOIPMCPServer.callTool (failT .undefined) ( "get_billing")
        [(( "domain"), .str ( "example.com"))] =
      (Except.ok { content := [bl] }, reqs) ∧
      ( "data") ∉ (serializeFields bl.fields).map Prod.fst) ∧
    (∃ bl reqs, OITVOIPMCPServer.callTool (failT .undefined) ( "get_domains") [] =
      (Except.ok { content := [bl] }, reqs) ∧
      (( "data"), JsValue.arr []) ∈ serializeFields bl.fields) :=
  ⟨serialization_key_dropping.1 ( "get_domains") [] (.obj []) (by decide) rfl,
   serialization_key_dropping.2.1 ( "get_billing")
     [(( "domain"), .str ( "example.com"))] .undefined (by decide) rfl,
   serialization_key_dropping.2.2 ( "get_domains") [] .undefined (by decide) rfl⟩
